import Mathlib

/-!
Verification of the Policy-Compare extraction / normalization /
reconciliation core.

This file is a shallow embedding, in Lean 4, of the algorithmic core of the
repository:

* `app/services/normalization_service.py`  (key/value normalization and
  conflict detection),
* `app/services/smart_extraction_service.py`  (the gap analyzer),
* `app/services/table_parser.py`  (the tiered-LTV band parser),
* `app/services/rule_based_extraction.py`  (the pattern-catalog rule
  extractor).

Modelling conventions:

* Python strings are modelled as `List Char` internally, with `String`
  wrappers at the API boundary.  Python's `str.lower`/`upper`/`capitalize`
  are modelled on the ASCII range (all characters relevant to the embedded
  code are ASCII or case-less symbols such as '₹').
* Python floats are modelled as rationals (`ℚ`).  All float literals that
  occur in the embedded code ('0.75', '0.2', '0.1', unit multipliers, the
  parsed decimal strings) are exactly representable, so the comparisons
  the code performs agree with their rational counterparts; `float('inf')`,
  which occurs only as the upper bound of a "minimum N" range, is modelled
  by `Option ℚ` with `none` standing for +∞.
* The concrete regular expressions of the normalization service and of the
  table parser are embedded as hand-written matchers that follow the
  regexes constructor by constructor; where a greedy choice of an optional
  part is committed, a comment explains why committing coincides with the
  backtracking semantics of `re`.  The large pattern catalog of
  `rule_based_extraction.py` is embedded as data (a regex AST) together
  with a backtracking engine that mirrors `re`'s ordered semantics.
* Exceptions are modelled with `Except`/`Option`: `int(...)`'s
  `ValueError` in the table parser surfaces as `Except.error`.
-/

namespace PolicyCompare

/- Batteries marks the `Rat` field operations `@[irreducible]`, which
blocks `decide`/`rfl` evaluation of the embedded arithmetic; proofs here
evaluate concrete rational computations, so restore the default
reducibility (the kernel ignores reducibility attributes either way). -/
set_option allowUnsafeReducibility true
attribute [semireducible] Rat.mul Rat.add Rat.sub Rat.inv

/-! ## Basic Python string primitives (on `List Char`) -/

/-- Python `\s` on the ASCII range: space, tab, newline, CR, FF, VT. -/
def isWs (c : Char) : Bool :=
  c = ' ' || c = '\t' || c = '\n' || c = '\x0d' || c = '\x0c' || c = '\x0b'

/-- Python `\d` (ASCII). -/
def isDig (c : Char) : Bool := '0' ≤ c && c ≤ '9'

/-- ASCII lower-case letter. -/
def isLowerAsc (c : Char) : Bool := 'a' ≤ c && c ≤ 'z'

/-- ASCII upper-case letter. -/
def isUpperAsc (c : Char) : Bool := 'A' ≤ c && c ≤ 'Z'

/-- Python `str.lower` on one character (ASCII range). -/
def lowC (c : Char) : Char :=
  if isUpperAsc c then Char.ofNat (c.toNat + 32) else c

/-- Python `str.upper` on one character (ASCII range). -/
def uppC (c : Char) : Char :=
  if isLowerAsc c then Char.ofNat (c.toNat - 32) else c

/-- Python `str.lower`. -/
def pyLower (l : List Char) : List Char := l.map lowC

/-- Python `str.upper`. -/
def pyUpper (l : List Char) : List Char := l.map uppC

/-- Python `\w` (ASCII): letters, digits, underscore. -/
def isWordC (c : Char) : Bool :=
  isDig c || isLowerAsc c || isUpperAsc c || c = '_'

/-- Case-insensitive character comparison, as under `re.IGNORECASE`. -/
def eqCI (a b : Char) : Bool := lowC a = lowC b

/-- Does `pat` occur as a contiguous substring of `l`?  Python's `in`. -/
def containsSub (l pat : List Char) : Bool :=
  if pat.isPrefixOf l then true
  else match l with
       | [] => false
       | _ :: t => containsSub t pat

/-- Worker for `replaceAll`; structural on `fuel`, which starts at the
string length and never runs out since each step consumes at least one
character (`pat` is non-empty here). -/
def replaceAllGo (pat rep : List Char) : Nat → List Char → List Char
  | 0, l => l
  | _, [] => []
  | fuel + 1, c :: t =>
    if pat.isPrefixOf (c :: t) then
      rep ++ replaceAllGo pat rep fuel ((c :: t).drop pat.length)
    else c :: replaceAllGo pat rep fuel t

/-- Python `str.replace pat rep` (all non-overlapping occurrences, left to
right); `pat` is non-empty at every call site, and for `pat = []` we
return `l` unchanged. -/
def replaceAll (l pat rep : List Char) : List Char :=
  match pat with
  | [] => l
  | _ :: _ => replaceAllGo pat rep l.length l

/-- Python `str.strip()` (whitespace from both ends). -/
def pyStrip (l : List Char) : List Char :=
  ((l.dropWhile isWs).reverse.dropWhile isWs).reverse

/-- Python slicing `l[:n]`. -/
def pyTake (n : Nat) (l : List Char) : List Char := l.take n

/-- Python `str.split(sep, 1)`'s splitting point: split at the first
occurrence of `sep` (`sep` non-empty); `none` when `sep` does not occur. -/
def splitFirst (l sep : List Char) : Option (List Char × List Char) :=
  match l with
  | [] => none
  | c :: t =>
    if sep.isPrefixOf (c :: t) then some ([], (c :: t).drop sep.length)
    else match splitFirst t sep with
         | some (a, b) => some (c :: a, b)
         | none => none

/-- Worker for `splitAll`; the remainder shrinks at every split (the
separator is non-empty), so `fuel = l.length` is never exhausted. -/
def splitAllGo (sep : List Char) : Nat → List Char → List (List Char)
  | 0, l => [l]
  | fuel + 1, l =>
    match splitFirst l sep with
    | none => [l]
    | some (a, b) => a :: splitAllGo sep fuel b

/-- Python `str.split(sep)` for non-empty `sep` (all occurrences). -/
def splitAll (l sep : List Char) : List (List Char) :=
  match sep with
  | [] => [l]
  | _ :: _ => splitAllGo sep l.length l

/-- Python `str.capitalize()`: first character upper-cased, the rest
lower-cased (ASCII model). -/
def pyCapitalize (l : List Char) : List Char :=
  match l with
  | [] => []
  | c :: t => uppC c :: pyLower t

/-- `'sep'.join xs`. -/
def joinSep (sep : List Char) (xs : List (List Char)) : List Char :=
  match xs with
  | [] => []
  | [x] => x
  | x :: y :: t => x ++ sep ++ joinSep sep (y :: t)

/-- Replace every maximal run of `p`-characters by the single character
`rep` (the effect of `re.sub(p+, rep, l)`); `inRun` tracks whether the
previous character was part of a run. -/
def collapseRunsGo (p : Char → Bool) (rep : Char) :
    Bool → List Char → List Char
  | _, [] => []
  | inRun, c :: t =>
    if p c then
      if inRun then collapseRunsGo p rep true t
      else rep :: collapseRunsGo p rep true t
    else c :: collapseRunsGo p rep false t

/-- `re.sub(r'\s+', ' ', l)`. -/
def collapseWs (l : List Char) : List Char := collapseRunsGo isWs ' ' false l

/-- Decimal digits of a natural number, most significant first. -/
def natDigits (n : ℕ) : List Char := Nat.toDigits 10 n

/-- `str` of a Python int. -/
def intStr (i : ℤ) : List Char :=
  if i < 0 then '-' :: natDigits i.natAbs else natDigits i.natAbs

/-- Round half to even (the rounding used by float formatting). -/
def roundHalfEven (q : ℚ) : ℤ :=
  let f : ℤ := ⌊q⌋
  let r : ℚ := q - f
  if r < 1/2 then f
  else if 1/2 < r then f + 1
  else if f % 2 = 0 then f else f + 1

/-- Insert thousands separators into a digit string (most significant
digit first), as `format(n, ',')` does. -/
def commaGroup (ds : List Char) : List Char :=
  (ds.enum.map (fun ic =>
    if ic.1 ≠ 0 ∧ (ds.length - ic.1) % 3 = 0 then [',', ic.2] else [ic.2])).flatten

/-- Python `f"{amount:,.0f}"`: round half to even to an integer, thousands
separated by commas. -/
def fmtComma0f (q : ℚ) : List Char :=
  let n := roundHalfEven q
  if n < 0 then '-' :: commaGroup (natDigits n.natAbs)
  else commaGroup (natDigits n.natAbs)

/-- Python `f"{num:.2f}"`: round half to even at two decimals. -/
def fmt2f (q : ℚ) : List Char :=
  let sgn : List Char := if q < 0 then ['-'] else []
  let c : ℤ := roundHalfEven (|q| * 100)
  let n := c.natAbs
  sgn ++ natDigits (n / 100) ++ '.' ::
    [Char.ofNat (48 + (n % 100) / 10), Char.ofNat (48 + n % 10)]

/-- Python `float.is_integer`. -/
def qIsInt (q : ℚ) : Bool := q.den = 1

/-- Truncation of a non-negative float to `int`, as Python `int(float)`. -/
def qTruncInt (q : ℚ) : ℤ := q.num / (q.den : ℤ)

/-- Fractional decimal digits of `r` (`0 ≤ r < 1`), without trailing
zeros; `fuel` bounds the expansion and is never exhausted for the decimal
fractions that occur here. -/
def fracDigits (fuel : Nat) (r : ℚ) : List Char :=
  match fuel with
  | 0 => []
  | fuel + 1 =>
    if r = 0 then []
    else
      let r10 := r * 10
      let d : ℤ := ⌊r10⌋
      Char.ofNat (48 + d.toNat) :: fracDigits fuel (r10 - d)

/-- `str(float)` for floats obtained by parsing short decimal literals:
the decimal expansion without trailing zeros, with a trailing ".0" for
integral values (e.g. "5.0", "2.5").  All floats reaching `str`/f-string
interpolation in the embedded code come from such literals, for which this
is exactly CPython's `repr`. -/
def fltStr (q : ℚ) : List Char :=
  let sgn : List Char := if q < 0 then ['-'] else []
  let a := |q|
  let ip : ℕ := a.num.toNat / a.den
  let fr := fracDigits 30 (a - (ip : ℚ))
  sgn ++ natDigits ip ++ '.' :: (if fr.isEmpty then ['0'] else fr)

/-- Python `int(s)` on a string over the alphabet the call sites can
produce (digits only, after commas are removed): `ValueError` (here
`none`) when empty or containing a non-digit. -/
def pyIntParse (l : List Char) : Option ℤ :=
  if l.isEmpty then none
  else if l.all isDig then
    some ((l.foldl (fun acc c => acc * 10 + (c.toNat - 48)) 0 : ℕ) : ℤ)
  else none

/-- Numeric value of a digit string (empty string counts 0, as the integer
part of ".5" does in `float`). -/
def digitsVal (ds : List Char) : ℚ :=
  ((ds.foldl (fun acc c => acc * 10 + (c.toNat - 48)) 0 : ℕ) : ℚ)

/-- Python `float(s)` restricted to the alphabet `[0-9.-]` that survives
`re.sub(r'[^\d.-]', '', value)`: `[sign] (digits [. digits*] | . digits+)`
matching the entire string.  Everything else (including "", "-", "1.2.3",
"1-2") raises `ValueError`, i.e. `none`. -/
def pyFloatParse (l : List Char) : Option ℚ :=
  let f : Bool × List Char :=
    match l with
    | '-' :: t => (true, t)
    | _ => (false, l)
  let ip := f.2.takeWhile isDig
  let rest := f.2.dropWhile isDig
  let mag : Option ℚ :=
    match rest with
    | [] => if ip.isEmpty then none else some (digitsVal ip)
    | '.' :: fr =>
      if fr.all isDig then
        if ip.isEmpty && fr.isEmpty then none
        else some (digitsVal ip + digitsVal fr / ((10 : ℚ) ^ fr.length))
      else none
    | _ => none
  mag.map (fun m => if f.1 then -m else m)

/-! ## The fact record (`app/models/document.py`, `ExtractedFact`)

Pydantic model with optional fields defaulting to `None`; `coordinates`
(a JSON object of floats) is modelled as an association list. -/

structure Fact where
  key : String
  value : String
  confidence : ℚ
  source_page : Option ℤ := none
  source_text : Option String := none
  coordinates : Option (List (String × ℚ)) := none
  source_reference : Option String := none
  effective_date : Option String := none
deriving DecidableEq, Repr

/-! ## Key normalization (`NormalizationService._normalize_key`) -/

/-- `TERM_SYNONYMS` as the Python dict literal evaluates at runtime: the
duplicated `'processing_fee'` key keeps its first position but the second
(concatenated) value. -/
def TERM_SYNONYMS : List (String × List String) :=
  [ ("cibil", ["credit_score", "cibil_score", "credit_rating", "bureau_score"]),
    ("credit_score", ["cibil", "cibil_score", "credit_rating", "bureau_score"]),
    ("processing_fee", ["login_fee", "login_charges", "login_fee_processing_fee",
                        "admin_fee", "administrative_charges", "handling_charges"]),
    ("prepayment", ["foreclosure", "pre_closure", "early_repayment", "premature_closure"]),
    ("foreclosure", ["prepayment", "pre_closure", "early_repayment", "premature_closure"]),
    ("ltv", ["loan_to_value", "ltv_ratio", "financing_ratio"]),
    ("tenure", ["term", "loan_term", "repayment_period", "loan_period"]),
    ("term", ["tenure", "loan_term", "repayment_period", "loan_period"]),
    ("emi", ["equated_monthly_installment", "monthly_installment", "installment"]),
    ("interest_rate", ["roi", "rate_of_interest", "lending_rate", "home_loan_rate"]),
    ("property_value", ["property_cost", "property_worth", "asset_value"]),
    ("income_proof", ["salary_certificate", "income_certificate", "pay_slip"]),
    ("reset", ["revision", "rate_change", "adjustment"]),
    ("grievance", ["complaint", "dispute", "issue_resolution"]) ]

/-- `re.sub(r'_+', '_', s)`: collapse runs of underscores. -/
def collapseUnders (l : List Char) : List Char :=
  collapseRunsGo (· = '_') '_' false l

/-- One segment: `re.sub(r'[^a-z0-9_]', '_', seg.lower())`, collapse `_+`,
then `.strip('_')`. -/
def normSegment (s : List Char) : List Char :=
  let lowered := (pyLower s).map (fun c =>
    if isLowerAsc c || isDig c || c = '_' then c else '_')
  (((collapseUnders lowered).dropWhile (· = '_')).reverse.dropWhile
    (· = '_')).reverse

/-- The synonym pass: for each canonical term in order, if any synonym
occurs in the field, replace (all occurrences of) the first synonym found
with the canonical term and move to the next canonical term. -/
def applySynonyms (field : List Char) : List Char :=
  TERM_SYNONYMS.foldl (fun f entry =>
    match entry.2.find? (fun syn => containsSub f syn.data) with
    | some syn => replaceAll f syn.data entry.1.data
    | none => f) field

/-- `NormalizationService._normalize_key`. -/
def normalize_key_chars (key : List Char) : List Char :=
  match splitFirst key ['.'] with
  | some (sec, field) =>
    normSegment sec ++ '.' :: applySynonyms (normSegment field)
  | none => applySynonyms (normSegment key)

/-- String-level wrapper. -/
def normalize_key (key : String) : String := ⟨normalize_key_chars key.data⟩

/-! ## Hand-embedded regex matchers for value normalization

Each matcher implements one compiled regex of the service, anchored at the
head of the list; `searchPos` turns an anchored matcher into `re.search`
(leftmost match).  Comments justify every committed greedy choice. -/

/-- Leftmost-match search: try the anchored matcher at each position. -/
def searchPos (f : List Char → Option α) : List Char → Option α
  | [] => f []
  | c :: t =>
    match f (c :: t) with
    | some r => some r
    | none => searchPos f t

/-- Consume `pat` case-insensitively (a ci literal). -/
def stripCI (pat l : List Char) : Option (List Char) :=
  match pat, l with
  | [], l => some l
  | _ :: _, [] => none
  | p :: ps, c :: cs => if eqCI c p then stripCI ps cs else none

/-- Consume one optional character, case-insensitively (`x?`). -/
def optCI (c : Char) (l : List Char) : List Char :=
  match l with
  | x :: t => if eqCI x c then t else l
  | [] => l

/-- `[0-9,]`. -/
def isAmtC (c : Char) : Bool := isDig c || c = ','

/-- The backtick character (spelled numerically). -/
def btk : Char := Char.ofNat 96

/-- `[0-9,]+(?:\.[0-9]{2})?` at the head, returning the capture.
Committing the optional ".dd" is exact: the pattern ends immediately after
the optional group, so `re` never backtracks out of a successful match of
it. -/
def curAmtCapture (l : List Char) : Option (List Char) :=
  let ds := l.takeWhile isAmtC
  if ds.isEmpty then none
  else
    match l.dropWhile isAmtC with
    | '.' :: d1 :: d2 :: _ =>
      if isDig d1 && isDig d2 then some (ds ++ ['.', d1, d2]) else some ds
    | _ => some ds

/-- `[0-9,]+(?:\.[0-9]*)?` at the head: capture and rest.  Committing the
'.' and the greedy fraction is exact: what must follow (`\s*` and a
letter) can be neither '.' nor a digit. -/
def curNumCapture (l : List Char) : Option (List Char × List Char) :=
  let ds := l.takeWhile isAmtC
  if ds.isEmpty then none
  else
    match l.dropWhile isAmtC with
    | '.' :: t => some (ds ++ '.' :: t.takeWhile isDig, t.dropWhile isDig)
    | r => some (ds, r)

/-- Pattern 1: `₹\s*([0-9,]+(?:\.[0-9]{2})?)`. -/
def cur1 (l : List Char) : Option (List Char) :=
  match l with
  | '₹' :: t => curAmtCapture (t.dropWhile isWs)
  | _ => none

/-- Pattern 2: `Rs\.?\s*([0-9,]+(?:\.[0-9]{2})?)` (ci).  Committing the
optional '.' is exact: skipped, it could satisfy neither `\s*` nor
`[0-9,]+`. -/
def cur2 (l : List Char) : Option (List Char) :=
  match l with
  | a :: b :: t =>
    if eqCI a 'r' && eqCI b 's' then
      curAmtCapture ((match t with | '.' :: u => u | _ => t).dropWhile isWs)
    else none
  | _ => none

/-- Pattern 3: `INR\s*([0-9,]+(?:\.[0-9]{2})?)` (ci). -/
def cur3 (l : List Char) : Option (List Char) :=
  (stripCI "inr".data l).bind fun t => curAmtCapture (t.dropWhile isWs)

/-- Pattern 4: `[`]\s*([0-9,]+(?:\.[0-9]{2})?)` (backtick marker). -/
def cur4 (l : List Char) : Option (List Char) :=
  match l with
  | c :: t => if c = btk then curAmtCapture (t.dropWhile isWs) else none
  | _ => none

/-- The suffix `(?:akh?s?|ac?s?)` (ci).  Alternation order (`akh?s?`
first, needing 'k') and the trailing optional characters cannot affect
success, as nothing follows the group in the pattern. -/
def lakhSuffix (l : List Char) : Option Unit :=
  match l with
  | a :: t =>
    if eqCI a 'a' then
      match t with
      | k :: t2 =>
        if eqCI k 'k' then some (let _ := optCI 's' (optCI 'h' t2); ())
        else some (let _ := optCI 's' (optCI 'c' t); ())
      | [] => some ()
    else none
  | [] => none

/-- Pattern 5: `([0-9,]+(?:\.[0-9]*)?)\s*L(?:akh?s?|ac?s?)` (ci). -/
def cur5 (l : List Char) : Option (List Char) :=
  (curNumCapture l).bind fun cr =>
    match cr.2.dropWhile isWs with
    | c :: t => if eqCI c 'l' then (lakhSuffix t).map fun _ => cr.1 else none
    | [] => none

/-- Pattern 6: `([0-9,]+(?:\.[0-9]*)?)\s*Cr(?:ore?s?)` (ci): after "Cr"
the literal "or" is mandatory, then optional 'e', 's'. -/
def cur6 (l : List Char) : Option (List Char) :=
  (curNumCapture l).bind fun cr =>
    match cr.2.dropWhile isWs with
    | c :: r :: o :: r2 :: t =>
      if eqCI c 'c' && eqCI r 'r' && eqCI o 'o' && eqCI r2 'r' then
        some (let _ := optCI 's' (optCI 'e' t); cr.1)
      else none
    | _ => none

/-- Pattern 7: `([0-9,]+(?:\.[0-9]*)?)\s*(?:Thousand|K)` (ci). -/
def cur7 (l : List Char) : Option (List Char) :=
  (curNumCapture l).bind fun cr =>
    let r := cr.2.dropWhile isWs
    match stripCI "thousand".data r with
    | some _ => some cr.1
    | none =>
      match r with
      | c :: _ => if eqCI c 'k' then some cr.1 else none
      | [] => none

/-- The compiled `CURRENCY_PATTERNS`, in order. -/
def CURRENCY_PATTERNS : List (List Char → Option (List Char)) :=
  [cur1, cur2, cur3, cur4, cur5, cur6, cur7]

/-- `NormalizationService._contains_currency`. -/
def contains_currency (v : List Char) : Bool :=
  CURRENCY_PATTERNS.any fun p => (searchPos p v).isSome

/-- `[0-9]+(?:\.[0-9]+)?` at the head: capture and rest.  At every call
site the next required token is '%', whitespace or a letter, so
committing the fraction (when '.' and at least one digit follow) is
exact. -/
def pctNumCapture (l : List Char) : Option (List Char × List Char) :=
  let ds := l.takeWhile isDig
  if ds.isEmpty then none
  else
    match l.dropWhile isDig with
    | '.' :: t =>
      let fs := t.takeWhile isDig
      if fs.isEmpty then some (ds, '.' :: t)
      else some (ds ++ '.' :: fs, t.dropWhile isDig)
    | r => some (ds, r)

/-- Percentage pattern 1:
`([0-9]+(?:\.[0-9]+)?)\s*%\s*(?:per\s+annum|p\.a\.?|annually)?` (ci).
The trailing optional group can affect neither success nor the capture
and is therefore not materialized. -/
def pct1 (l : List Char) : Option (List Char) :=
  (pctNumCapture l).bind fun cr =>
    match cr.2.dropWhile isWs with
    | '%' :: _ => some cr.1
    | _ => none

/-- Percentage pattern 2: `([0-9]+(?:\.[0-9]+)?)\s*percent` (ci). -/
def pct2 (l : List Char) : Option (List Char) :=
  (pctNumCapture l).bind fun cr =>
    (stripCI "percent".data (cr.2.dropWhile isWs)).map fun _ => cr.1

/-- Percentage pattern 3: `([0-9]+(?:\.[0-9]+)?)\s*pc` (ci). -/
def pct3 (l : List Char) : Option (List Char) :=
  (pctNumCapture l).bind fun cr =>
    (stripCI "pc".data (cr.2.dropWhile isWs)).map fun _ => cr.1

/-- The compiled `PERCENTAGE_PATTERNS`, in order. -/
def PERCENTAGE_PATTERNS : List (List Char → Option (List Char)) :=
  [pct1, pct2, pct3]

/-- `NormalizationService._contains_percentage`. -/
def contains_percentage (v : List Char) : Bool :=
  PERCENTAGE_PATTERNS.any fun p => (searchPos p v).isSome

/-! ## Field-kind detection and scalar normalizers -/

/-- `NormalizationService._is_currency_field`. -/
def is_currency_field (key : List Char) : Bool :=
  ["fee", "charge", "amount", "limit", "income", "salary", "cost"].any
    fun w => containsSub (pyLower key) w.data

/-- `NormalizationService._is_percentage_field`. -/
def is_percentage_field (key : List Char) : Bool :=
  ["rate", "apr", "interest", "roi", "ltv", "percent", "penalty", "spread"].any
    fun w => containsSub (pyLower key) w.data

/-- `NormalizationService._is_numerical_field`. -/
def is_numerical_field (key : List Char) : Bool :=
  ["days", "months", "years", "score", "limit", "period", "tenure", "term",
   "age", "experience"].any fun w => containsSub (pyLower key) w.data

/-- `NormalizationService._normalize_currency`: try each currency pattern
in order; on a match, pick the unit by (upper-cased) markers present
anywhere in the value and format `INR {amount:,.0f}`; a float-parse
failure (`except ValueError: pass`) falls through to the next pattern. -/
def normCurGo (v : List Char) :
    List (List Char → Option (List Char)) → List Char
  | [] => v
  | p :: ps =>
    match searchPos p v with
    | none => normCurGo v ps
    | some amountStr =>
      let vU := pyUpper v
      let amount := pyFloatParse (replaceAll amountStr [','] [])
      if containsSub vU "L".data || containsSub vU "LAKH".data ||
         containsSub vU "LAC".data then
        match amount with
        | some a => "INR ".data ++ fmtComma0f (a * 100000)
        | none => normCurGo v ps
      else if containsSub vU "CR".data || containsSub vU "CRORE".data then
        match amount with
        | some a => "INR ".data ++ fmtComma0f (a * 10000000)
        | none => normCurGo v ps
      else if containsSub vU "K".data || containsSub vU "THOUSAND".data then
        match amount with
        | some a => "INR ".data ++ fmtComma0f (a * 1000)
        | none => normCurGo v ps
      else
        match amount with
        | some a => "INR ".data ++ fmtComma0f a
        | none => normCurGo v ps

/-- `NormalizationService._normalize_currency`. -/
def normalize_currency (v : List Char) : List Char :=
  normCurGo v CURRENCY_PATTERNS

/-- `NormalizationService._normalize_percentage`: first matching pattern;
`f"{float(g1)}%"`. -/
def normPctGo (v : List Char) :
    List (List Char → Option (List Char)) → List Char
  | [] => v
  | p :: ps =>
    match searchPos p v with
    | none => normPctGo v ps
    | some cap =>
      match pyFloatParse cap with
      | some q => fltStr q ++ ['%']
      | none => normPctGo v ps

/-- `NormalizationService._normalize_percentage`. -/
def normalize_percentage (v : List Char) : List Char :=
  normPctGo v PERCENTAGE_PATTERNS

/-- Worker for `findallNums`, structural on `fuel`. -/
def findallNumsGo : Nat → List Char → List (List Char)
  | 0, _ => []
  | _, [] => []
  | fuel + 1, c :: t =>
    if isDig c then
      -- since `c` is a digit, the greedy `\d+` is `c` followed by the
      -- digit prefix of `t`
      let ds := c :: t.takeWhile isDig
      match t.dropWhile isDig with
      | '.' :: u =>
        let fs := u.takeWhile isDig
        if fs.isEmpty then ds :: findallNumsGo fuel ('.' :: u)
        else (ds ++ '.' :: fs) :: findallNumsGo fuel (u.dropWhile isDig)
      | r => ds :: findallNumsGo fuel r
    else findallNumsGo fuel t

/-- `re.findall(r'\d+(?:\.\d+)?', l)`: leftmost, non-overlapping; the
greedy fraction is committed (nothing follows it in the pattern).  The
recursion consumes at least one character per step, so `fuel = l.length`
is never exhausted. -/
def findallNums (l : List Char) : List (List Char) := findallNumsGo l.length l

/-- `NormalizationService._normalize_number`: first number in the string;
integers without decimals, otherwise two decimal places. -/
def normalize_number (v : List Char) : List Char :=
  match findallNums v with
  | n :: _ =>
    match pyFloatParse n with
    | some q => if qIsInt q then intStr (qTruncInt q) else fmt2f q
    | none => v
  | [] => v

/-- `NormalizationService._normalize_text`: collapse whitespace, then
capitalize each '. '-separated sentence, dropping empty pieces. -/
def normalize_text (v : List Char) : List Char :=
  let n := pyStrip (collapseWs v)
  joinSep ". ".data
    (((splitAll n ". ".data).filter (fun s => !s.isEmpty)).map pyCapitalize)

/-! ## The three anchored `re.match` patterns of `_normalize_value` -/

/-- `(?:₹|rs\.?|inr)` (ci); the alternatives start with distinct
characters, and the optional '.' after "rs" is committed (skipped, it
could satisfy neither `\s*` nor `[0-9,]+`). -/
def curMarker (l : List Char) : Option (List Char) :=
  match l with
  | '₹' :: t => some t
  | _ =>
    match stripCI "rs".data l with
    | some t => some (match t with | '.' :: u => u | _ => t)
    | none => stripCI "inr".data l

/-- The tail `(?P<amt>[0-9,]+)\s*whichever is\s*(?P<which>higher|lower)`
of the whichever-pattern, starting at the amount: returns the `amt` and
`which` captures. -/
def amtAndWhich (l : List Char) : Option (List Char × List Char) :=
  let amt := l.takeWhile isAmtC
  if amt.isEmpty then none
  else
    (stripCI "whichever is".data
        ((l.dropWhile isAmtC).dropWhile isWs)).bind fun r7 =>
      let r8 := r7.dropWhile isWs
      match stripCI "higher".data r8 with
      | some _ => some (amt, r8.take 6)
      | none => (stripCI "lower".data r8).map fun _ => (amt, r8.take 5)

/-- The part after "pct%":
`\s*or\s*(?:₹|rs\.?|inr)\s*(?P<amt>[0-9,]+)\s*whichever is\s*(?P<which>higher|lower)`. -/
def whicheverCore (l : List Char) : Option (List Char × List Char) :=
  (stripCI "or".data (l.dropWhile isWs)).bind fun r3 =>
    (curMarker (r3.dropWhile isWs)).bind fun r4 =>
      amtAndWhich (r4.dropWhile isWs)

/-- `re.match` of
`(?P<pct>[0-9]+(?:\.[0-9]+)?)%\s*or\s*(?:₹|rs\.?|inr)\s*(?P<amt>[0-9,]+)\s*whichever is\s*(?P<which>higher|lower)`
(ci), returning the three captures.  Backtracking out of the committed
fraction of `pct` cannot help: a shorter `pct` would need '%' at a '.'. -/
def matchWhichever (l : List Char) :
    Option (List Char × List Char × List Char) :=
  (pctNumCapture l).bind fun pr =>
    match pr.2 with
    | '%' :: r2 => (whicheverCore r2).map fun aw => (pr.1, aw.1, aw.2)
    | _ => none

/-- `re.match` of
`(?P<pct>[0-9]+(?:\.[0-9]+)?)%\s*or\s*(?:₹|rs\.?|inr)\s*(?P<amt>[0-9,]+)` (ci). -/
def matchCompound (l : List Char) : Option (List Char × List Char) :=
  (pctNumCapture l).bind fun pr =>
    match pr.2 with
    | '%' :: r2 =>
      (stripCI "or".data (r2.dropWhile isWs)).bind fun r3 =>
      (curMarker (r3.dropWhile isWs)).bind fun r4 =>
      let r5 := r4.dropWhile isWs
      let amt := r5.takeWhile isAmtC
      if amt.isEmpty then none else some (pr.1, amt)
    | _ => none

/-- `re.match` of `(\d+(?:\.\d+)?)%\s*(?:to|-|–)\s*(\d+(?:\.\d+)?)%`
(case-sensitive). -/
def matchRng (l : List Char) : Option (List Char × List Char) :=
  (pctNumCapture l).bind fun ar =>
    match ar.2 with
    | '%' :: r2 =>
      (match r2.dropWhile isWs with
       | 't' :: 'o' :: t => some t
       | '-' :: t => some t
       | '–' :: t => some t
       | _ => none).bind fun r4 =>
      (pctNumCapture (r4.dropWhile isWs)).bind fun br =>
        match br.2 with
        | '%' :: _ => some (ar.1, br.1)
        | _ => none
    | _ => none

/-! ## `NormalizationService._normalize_value` -/

/-- The tail of `_normalize_value` after the EMI-amount special case:
currency, percentage-range, percentage, numeric, text — in source
order. -/
def normalizeValueTail (v key : List Char) : List Char :=
  if is_currency_field key || contains_currency v then normalize_currency v
  else
    match matchRng v with
    | some ab => ab.1 ++ "%-".data ++ ab.2 ++ ['%']
    | none =>
      if is_percentage_field key || contains_percentage v then
        normalize_percentage v
      else if is_numerical_field key then normalize_number v
      else normalize_text v

/-- `NormalizationService._normalize_value` (`value` is a string here, so
the `isinstance` branch reduces to the emptiness test). -/
def normalize_value_chars (value key : List Char) : List Char :=
  if value.isEmpty then []
  else
    let v := pyStrip value
    if containsSub (pyLower key) "emi_currency".data then
      if v.contains '₹' || v.contains btk ||
         containsSub (pyLower v) "rs".data ||
         containsSub (pyLower v) "inr".data then ['₹']
      else v
    else
      match matchWhichever v with
      | some paw =>
        paw.1 ++ "% or ₹".data ++ paw.2.1 ++ " (use ".data ++
          (if pyLower paw.2.2 = "higher".data then "min".data
           else "max".data) ++ [')']
      | none =>
        match matchCompound v with
        | some pa => pa.1 ++ "% (min ₹".data ++ pa.2 ++ [')']
        | none =>
          if "repayment.emi_amount".data.isSuffixOf (pyLower key) ||
             containsSub (pyLower key) "emi_amount".data then
            let v2 :=
              if ["rs", "inr", "₹"].any
                   (fun tok => containsSub (pyLower v) tok.data) ||
                 containsSub (pyLower v) [btk] then
                normalize_currency v
              else v
            match findallNums (replaceAll v2 [','] []) with
            | n :: _ =>
              match pyFloatParse n with
              | some q =>
                if 0 < q && q < 100 then [] else normalizeValueTail v2 key
              | none => normalizeValueTail v2 key
            | [] => normalizeValueTail v2 key
          else normalizeValueTail v key

/-- String-level wrapper. -/
def normalize_value (value key : String) : String :=
  ⟨normalize_value_chars value.data key.data⟩

/-- `NormalizationService.normalize_single_fact`: a fresh fact with
normalized key and value; `source_reference` and `effective_date` are not
passed to the constructor and take their `None` defaults. -/
def normalize_single_fact (fact : Fact) : Fact :=
  { key := normalize_key fact.key
    value := normalize_value fact.value fact.key
    confidence := fact.confidence
    source_page := fact.source_page
    source_text := fact.source_text
    coordinates := fact.coordinates }

/-! ## Conflict detection (`NormalizationService.detect_conflicts`) -/

/-- `re.sub(r'[^\d.-]', '', v)`. -/
def stripNonNum (v : List Char) : List Char :=
  v.filter fun c => isDig c || c = '.' || c = '-'

/-- `re.sub(r'[^\w]', '', v)`. -/
def stripNonWord (v : List Char) : List Char := v.filter isWordC

/-- `NormalizationService._values_conflict`. -/
def values_conflict (v1 v2 : String) : Bool :=
  if v1 = v2 then false
  else
    match pyFloatParse (stripNonNum v1.data), pyFloatParse (stripNonNum v2.data) with
    | some n1, some n2 =>
      if 0 < max n1 n2 then decide (|n1 - n2| / max n1 n2 > 1/10) else false
    | _, _ =>
      let a := stripNonWord (pyLower v1.data)
      let b := stripNonWord (pyLower v2.data)
      a ≠ b && !a.isEmpty && !b.isEmpty

/-- A numeric range extracted by `_extract_ranges`; the dict
`{'fact': .., 'min': .., 'max': .., 'type': ..}` with `float('inf')`
modelled as `none`. -/
structure RInfo where
  fact : Fact
  rmin : ℚ
  rmax : Option ℚ
  rtype : String
deriving DecidableEq, Repr

/-- A conflict record: one constructor per dict shape produced by the
service. -/
inductive Conflict where
  | value_contradiction (key : String) (conflicting_values : List String)
      (sources : List (Option String)) (confidence_scores : List ℚ)
      (severity : String)
  | overlapping_ranges (category : String) (conflicting_ranges : List RInfo)
      (severity : String) (recommendation : String)
deriving DecidableEq, Repr

/-- The `'type'` field of a conflict record. -/
def Conflict.ctype : Conflict → String
  | .value_contradiction .. => "value_contradiction"
  | .overlapping_ranges .. => "overlapping_ranges"

/-- The `'severity'` field of a conflict record. -/
def Conflict.sev : Conflict → String
  | .value_contradiction _ _ _ _ s => s
  | .overlapping_ranges _ _ s _ => s

/-- Append to the entry of `k`, or create it at the end: the insertion
behaviour of a Python dict of lists. -/
def insertGrouped (groups : List (String × List Fact)) (k : String)
    (f : Fact) : List (String × List Fact) :=
  match groups with
  | [] => [(k, [f])]
  | (k', fs) :: t =>
    if k' = k then (k', fs ++ [f]) :: t else (k', fs) :: insertGrouped t k f

/-- Group facts by exact key, in insertion order. -/
def groupByKey (facts : List Fact) : List (String × List Fact) :=
  facts.foldl (fun gs f => insertGrouped gs f.key f) []

/-- All ordered pairs `(facts[i], facts[j])`, `i < j` — the nested loop of
`_detect_group_conflicts`. -/
def ordPairs : List α → List (α × α)
  | [] => []
  | x :: t => t.map (fun y => (x, y)) ++ ordPairs t

/-- `NormalizationService._detect_group_conflicts`. -/
def detect_group_conflicts (key : String) (facts : List Fact) :
    List Conflict :=
  (ordPairs facts).filterMap fun fp =>
    if values_conflict fp.1.value fp.2.value then
      some (.value_contradiction key [fp.1.value, fp.2.value]
        [fp.1.source_text, fp.2.source_text]
        [fp.1.confidence, fp.2.confidence]
        (if |fp.1.confidence - fp.2.confidence| < 1/5 then "high"
         else "medium"))
    else none

/-- The range-category keywords, in order. -/
def RANGE_KEYWORDS : List String :=
  ["ltv", "interest_rate", "processing_fee", "age", "income", "tenure"]

/-- The grouping loop of `_detect_range_conflicts`: outer loop over facts,
inner loop over keywords. -/
def buildRangeGroups (facts : List Fact) : List (String × List Fact) :=
  facts.foldl
    (fun gs f =>
      RANGE_KEYWORDS.foldl
        (fun gs kw =>
          if containsSub (pyLower f.key.data) kw.data then
            insertGrouped gs kw f
          else gs)
        gs)
    []

/-! ### The four range patterns of `_extract_ranges` (all `re.IGNORECASE`) -/

/-- Optional `(?:%|L|Cr|K)` (ci).  Committing is exact: a consumed unit
character can start neither the following `\s*`-separator nor terminate
the pattern wrongly (the separators begin with '-', '–', '—' or 't'). -/
def rngUnit (l : List Char) : List Char :=
  match l with
  | '%' :: t => t
  | c :: t =>
    if eqCI c 'l' then t
    else if eqCI c 'c' then
      match t with
      | r :: u => if eqCI r 'r' then u else l
      | [] => l
    else if eqCI c 'k' then t
    else l
  | [] => l

/-- `(?:-|–|—|to)` (ci). -/
def rngSep (l : List Char) : Option (List Char) :=
  match l with
  | '-' :: t => some t
  | '–' :: t => some t
  | '—' :: t => some t
  | c1 :: c2 :: t => if eqCI c1 't' && eqCI c2 'o' then some t else none
  | _ => none

/-- `\s+` (at least one whitespace character; greedy total consumption is
exact because nothing that follows can be whitespace). -/
def ws1 (l : List Char) : Option (List Char) :=
  match l with
  | c :: t => if isWs c then some (t.dropWhile isWs) else none
  | [] => none

/-- Range pattern 1:
`(\d+(?:\.\d+)?)\s*(?:%|L|Cr|K)?\s*(?:-|–|—|to)\s*(\d+(?:\.\d+)?)\s*(?:%|L|Cr|K)?`
returning the two captures (the trailing optional unit affects nothing). -/
def rngP1 (l : List Char) : Option (List Char × List Char) :=
  (pctNumCapture l).bind fun ar =>
    (rngSep ((rngUnit (ar.2.dropWhile isWs)).dropWhile isWs)).bind fun r3 =>
      (pctNumCapture (r3.dropWhile isWs)).map fun br => (ar.1, br.1)

/-- Range pattern 2: `up\s+to\s+(\d+(?:\.\d+)?)\s*(?:%|L|Cr|K)?`. -/
def rngP2 (l : List Char) : Option (List Char) :=
  (stripCI "up".data l).bind fun r1 =>
    (ws1 r1).bind fun r2 =>
      (stripCI "to".data r2).bind fun r3 =>
        (ws1 r3).bind fun r4 => (pctNumCapture r4).map fun nr => nr.1

/-- Range pattern 3: `minimum\s+(\d+(?:\.\d+)?)\s*(?:%|L|Cr|K)?`. -/
def rngP3 (l : List Char) : Option (List Char) :=
  (stripCI "minimum".data l).bind fun r1 =>
    (ws1 r1).bind fun r2 => (pctNumCapture r2).map fun nr => nr.1

/-- Range pattern 4: `maximum\s+(\d+(?:\.\d+)?)\s*(?:%|L|Cr|K)?`. -/
def rngP4 (l : List Char) : Option (List Char) :=
  (stripCI "maximum".data l).bind fun r1 =>
    (ws1 r1).bind fun r2 => (pctNumCapture r2).map fun nr => nr.1

/-- `float` of a regex capture of shape `\d+(?:\.\d+)?`; such captures
always parse, the default is unreachable. -/
def capQ (c : List Char) : ℚ := (pyFloatParse c).getD 0

/-- The `elif`-chain deciding the bound type from the *value text* (not
from which pattern matched); when a pattern matched but no branch applies
(e.g. "up  to 9", whose double space defeats the `'up to' in value`
test), nothing is recorded — and the `break` still fires. -/
def mkBound (f : Fact) (v : List Char) (g : List Char) : Option RInfo :=
  if containsSub (pyLower v) "up to".data then
    some ⟨f, 0, some (capQ g), "upper_bound"⟩
  else if containsSub (pyLower v) "minimum".data then
    some ⟨f, capQ g, none, "lower_bound"⟩
  else if containsSub (pyLower v) "maximum".data then
    some ⟨f, 0, some (capQ g), "upper_bound"⟩
  else none

/-- `_extract_ranges` for one fact: first matching pattern wins (`break`),
even when it contributes no range. -/
def extractRangesOne (f : Fact) : Option RInfo :=
  let v := f.value.data
  match searchPos rngP1 v with
  | some ab => some ⟨f, capQ ab.1, some (capQ ab.2), "range"⟩
  | none =>
    match searchPos rngP2 v with
    | some g => mkBound f v g
    | none =>
      match searchPos rngP3 v with
      | some g => mkBound f v g
      | none =>
        match searchPos rngP4 v with
        | some g => mkBound f v g
        | none => none

/-- `NormalizationService._extract_ranges`. -/
def extract_ranges (facts : List Fact) : List RInfo :=
  facts.filterMap extractRangesOne

/-! ### Float comparisons with `+∞` (`none`); no NaN can arise: `rmin` is
always finite and `rmax = none` occurs only for `lower_bound` ranges,
which never reach the range-range overlap arithmetic. -/

/-- `a == b` with `b` possibly `+∞`. -/
def eqO (a : ℚ) (b : Option ℚ) : Bool :=
  match b with | some q => a = q | none => false

/-- `a < b` with `a` possibly `+∞`. -/
def ltO (a : Option ℚ) (b : ℚ) : Bool :=
  match a with | some q => decide (q < b) | none => false

/-- `a > b` with `b` possibly `+∞`. -/
def gtO (a : ℚ) (b : Option ℚ) : Bool :=
  match b with | some q => decide (a > q) | none => false

/-- `min a b` with `+∞`. -/
def minO (a b : Option ℚ) : Option ℚ :=
  match a, b with
  | some x, some y => some (min x y)
  | some x, none => some x
  | none, y => y

/-- `a ≤ b` with `b` possibly `+∞`. -/
def leO (a : ℚ) (b : Option ℚ) : Bool :=
  match b with | some q => decide (a ≤ q) | none => true

/-- `a - q` with `a` possibly `+∞`. -/
def subO (a : Option ℚ) (q : ℚ) : Option ℚ := a.map (· - q)

/-- `a + b` with `+∞`. -/
def addO (a b : Option ℚ) : Option ℚ :=
  match a, b with
  | some x, some y => some (x + y)
  | _, _ => none

/-- `a < b` with either side possibly `+∞`. -/
def ltOO (a b : Option ℚ) : Bool :=
  match a, b with
  | some x, some y => decide (x < y)
  | some _, none => true
  | none, _ => false

/-- `NormalizationService._ranges_overlap_contradictory`. -/
def ranges_overlap_contradictory (r1 r2 : RInfo) : Bool :=
  if eqO r1.rmin r1.rmax && eqO r2.rmin r2.rmax then
    decide (r1.rmin ≠ r2.rmin)
  else if r1.rtype = "upper_bound" && r2.rtype = "lower_bound" &&
          ltO r1.rmax r2.rmin then true
  else if r1.rtype = "lower_bound" && r2.rtype = "upper_bound" &&
          gtO r1.rmin r2.rmax then true
  else if r1.rtype = "range" && r2.rtype = "range" then
    let overlap_start := max r1.rmin r2.rmin
    let overlap_end := minO r1.rmax r2.rmax
    if leO overlap_start overlap_end then
      let overlap_size := subO overlap_end overlap_start
      let s1 := subO r1.rmax r1.rmin
      let s2 := subO r2.rmax r2.rmin
      let avg := (addO s1 s2).map (· / 2)
      ltOO overlap_size (avg.map (3/10 * ·))
    else false
  else false

/-- `NormalizationService._detect_range_conflicts`. -/
def detect_range_conflicts (facts : List Fact) : List Conflict :=
  (buildRangeGroups facts).flatMap fun cg =>
    if 1 < cg.2.length then
      (ordPairs (extract_ranges cg.2)).filterMap fun rp =>
        if ranges_overlap_contradictory rp.1 rp.2 then
          some (.overlapping_ranges cg.1 [rp.1, rp.2] "high"
            "Mark as SUSPECT - contradictory range information")
        else none
    else []

/-- `NormalizationService.detect_conflicts`. -/
def detect_conflicts (facts : List Fact) : List Conflict :=
  ((groupByKey facts).flatMap fun kg =>
    if 1 < kg.2.length then detect_group_conflicts kg.1 kg.2 else [])
  ++ detect_range_conflicts facts

/-! ## Gap analyzer (`SmartExtractionService._analyze_gaps`) -/

/-- The fixed high-value checklist (sections believed to be reliably
template-filled are deliberately absent). -/
def HIGH_VALUE_TERMS : List (String × List String) :=
  [ ("fees_and_charges",
      ["processing_fee", "administrative_fee", "legal_charges",
       "valuation_charges"]),
    ("prepayment_and_foreclosure",
      ["prepayment_penalty", "foreclosure_charges", "lock_in_period"]),
    ("interest_rates",
      ["reset_frequency", "benchmark_rate", "rate_change_communication",
       "notification_method"]),
    ("documents", ["required_documents", "kyc_documents"]),
    ("grievance", ["process", "complaint_procedure", "customer_service"]) ]

/-- The `found_terms` set: each dotted key is split at the first '.' and
re-joined (hence equal to the key itself); keys without a dot are kept
as-is. -/
def foundTerms (rule_facts : List Fact) : List String :=
  rule_facts.map fun f =>
    match splitFirst f.key.data ['.'] with
    | some st => ⟨st.1 ++ '.' :: st.2⟩
    | none => f.key

/-- `SmartExtractionService._analyze_gaps`. -/
def analyze_gaps (rule_facts : List Fact) : List (String × List String) :=
  let found := foundTerms rule_facts
  HIGH_VALUE_TERMS.filterMap fun st =>
    let missing := st.2.filter fun term =>
      !found.contains (st.1 ++ "." ++ term)
    if missing.isEmpty then none else some (st.1, missing)

/-! ## Table parser (`app/services/table_parser.py`) -/

/-- One parsed LTV band. -/
structure Band where
  min_amount : Option ℤ
  max_amount : Option ℤ
  unit : Option String
  ltv : String
deriving DecidableEq, Repr

/-- `_to_int`: `None`/empty stays `None`; otherwise strip commas and
`int(...)` — which raises `ValueError` (`Except.error`) when nothing but
commas was captured. -/
def to_int (num : Option (List Char)) : Except Unit (Option ℤ) :=
  match num with
  | none => .ok none
  | some l =>
    if l.isEmpty then .ok none
    else
      match pyIntParse (replaceAll l [','] []) with
      | some n => .ok (some n)
      | none => .error ()

/-- The data of one `LTV_ROW` match. -/
structure LtvMatch where
  pct : List Char
  lower : Option (List Char)
  upper : Option (List Char)
  unit : Option (List Char)
  rest : List Char

/-- `(?P<pct>[0-9]{1,3})\s*%`: greedy `{1,3}` with backtracking against
the required '%'. -/
def ltvPct (l : List Char) : Option (List Char × List Char) :=
  tryN 3 <|> tryN 2 <|> tryN 1
where
  tryN (n : Nat) : Option (List Char × List Char) :=
    let ds := l.take n
    if ds.length = n && ds.all isDig then
      match (l.drop n).dropWhile isWs with
      | '%' :: t => some (ds, t)
      | _ => none
    else none

/-- The unit alternation `L|Lakh|Lac|Crore|Cr|K|Thousand` (ci), first
alternative wins: a bare 'L' shadows `Lakh`/`Lac`, `Crore` precedes `Cr`.
Returns (captured text, rest). -/
def ltvUnit (l : List Char) : Option (List Char × List Char) :=
  match l with
  | c :: t =>
    if eqCI c 'l' then some ([c], t)
    else
      match stripCI "crore".data l with
      | some r => some (l.take 5, r)
      | none =>
        match stripCI "cr".data l with
        | some r => some (l.take 2, r)
        | none =>
          if eqCI c 'k' then some ([c], t)
          else
            match stripCI "thousand".data l with
            | some r => some (l.take 8, r)
            | none => none
  | [] => none

/-- Anchored match of `LTV_ROW`.  After `pct%` every component is
optional, so greedy commitment of each component is exact: the remainder
of the pattern can never fail. -/
def matchLtvRow (l : List Char) : Option LtvMatch :=
  (ltvPct l).map fun pr =>
    let t1 := pr.2.dropWhile isWs
    let t2 := match t1 with | '-' :: u => u | '–' :: u => u | _ => t1
    let t3 := t2.dropWhile isWs
    let t4 :=
      match (stripCI "up".data t3).bind (fun r =>
        (stripCI "to".data (r.dropWhile isWs)).map
          (fun x => x.dropWhile isWs)) with
      | some u => u
      | none => t3
    let t5 := match t4 with | '₹' :: u => u | _ => t4
    let t6 := t5.dropWhile isWs
    let lower := t6.takeWhile isAmtC
    let t7 := t6.dropWhile isAmtC
    let upperRes : Option (List Char × List Char) :=
      (rngSep (t7.dropWhile isWs)).bind fun r =>
        let r2 := r.dropWhile isWs
        let r3 := match r2 with | '₹' :: u => u | _ => r2
        let r4 := r3.dropWhile isWs
        let up := r4.takeWhile isAmtC
        if up.isEmpty then none else some (up, r4.dropWhile isAmtC)
    let upper := upperRes.map (·.1)
    let t8 := match upperRes with | some ur => ur.2 | none => t7
    let t9 := t8.dropWhile isWs
    let unitRes := ltvUnit t9
    { pct := pr.1
      lower := if lower.isEmpty then none else some lower
      upper := upper
      unit := unitRes.map (·.1)
      rest := match unitRes with | some ur => ur.2 | none => t9 }

/-- The `finditer` loop of `parse_ltv_table`, building bands and
propagating the `ValueError` of `_to_int`.  `fuel` only guards
termination; every match consumes at least two characters, so
`length + 1` is never exhausted. -/
def ltvScan : Nat → List Char → Except Unit (List Band)
  | 0, _ => .ok []
  | fuel + 1, l =>
    match matchLtvRow l with
    | some m =>
      (to_int m.lower).bind fun lo =>
        (to_int m.upper).bind fun hi =>
          let unitS := pyStrip (m.unit.getD [])
          ((ltvScan fuel m.rest).map fun bs =>
            ({ min_amount := lo, max_amount := hi
               unit := if unitS.isEmpty then none else some ⟨unitS⟩
               ltv := ⟨m.pct ++ ['%']⟩ } : Band) :: bs)
    | none =>
      match l with
      | [] => .ok []
      | _ :: t => ltvScan fuel t

/-- `parse_ltv_table`. -/
def parse_ltv_table (text : String) : Except Unit (List Band) :=
  ltvScan (text.data.length + 1) text.data

/-! ## A regex AST and backtracking engine for the pattern catalog
(`app/services/rule_based_extraction.py`)

Every pattern in the catalog is compiled with `re.IGNORECASE`; literals
and character classes below are therefore case-insensitive.  The engine
enumerates match candidates in `re`'s order (alternation left to right,
greedy/lazy repetition), so the head of the result list is the match `re`
would produce. -/

inductive Rx where
  | eps
  | cls (p : Char → Bool)
  | seq (a b : Rx)
  | alt (a b : Rx)
  | star (r : Rx)
  | lazyStar (r : Rx)
  | rep (lo hi : Nat) (r : Rx)
  | grp (name : String) (r : Rx)
  | bdry

/-- Sequence of several pieces. -/
def rxseq (l : List Rx) : Rx := l.foldr .seq .eps

/-- Ordered alternation of several pieces (`alts []` is unused). -/
def alts (l : List Rx) : Rx :=
  match l with
  | [] => .eps
  | [r] => r
  | r :: t => .alt r (alts t)

/-- Case-insensitive literal. -/
def lit (s : String) : Rx := rxseq (s.data.map fun c => Rx.cls (eqCI · c))

/-- Character class given by explicit characters (case-insensitive, as
`re.IGNORECASE` applies inside classes too). -/
def chs (s : String) : Rx := .cls fun c => s.data.any (eqCI c)

/-- `r?` (greedy). -/
def copt (r : Rx) : Rx := .alt r .eps

/-- `r+` (greedy). -/
def p1 (r : Rx) : Rx := .seq r (.star r)

/-- `\s*`, `\s+`. -/
def rS : Rx := .star (.cls isWs)
def rSP : Rx := p1 (.cls isWs)

/-- `[0-9]`, `[0-9]+`, `[0-9]+(?:\.[0-9]+)?`, `[0-9,]+`. -/
def rdig : Rx := .cls isDig
def digits1 : Rx := p1 rdig
def rnum : Rx := .seq digits1 (copt (.seq (.cls (· = '.')) digits1))
def amtDigits : Rx := p1 (.cls isAmtC)

/-- `.` (any character but newline) and `.*?` / `.+`. -/
def rdot : Rx := .cls fun c => !(c = '\n')
def lazyDots : Rx := .lazyStar rdot
def dotsPlus : Rx := p1 rdot

/-- `[:\s]*` — a very common glue piece in the catalog. -/
def colWs : Rx := .star (.cls fun c => c = ':' || isWs c)

/-- `[A-Za-z]`, `[\w\s]`, `[\w\s,]`, `[^\s]`, `[^.]`, `[^\n\r]`. -/
def ralpha : Rx := .cls fun c => isLowerAsc c || isUpperAsc c
def rws : Rx := .cls fun c => isWordC c || isWs c
def rwsc : Rx := .cls fun c => isWordC c || isWs c || c = ','
def rnotWs : Rx := .cls fun c => !isWs c
def rnotDot : Rx := .cls fun c => !(c = '.')
def rnotNl : Rx := .cls fun c => !(c = '\n' || c = '\x0d')

/-- Named captures: substring list per group name. -/
abbrev Caps := List (String × List Char)

/-- One engine step result: remaining input, new previous character (for
`\b`), captures recorded so far. -/
abbrev MRes := List Char × Option Char × Caps

/-- The backtracking engine.  `fuel` is decremented on every unbounded
repetition unfolding (bounded progress is enforced by the empty-match
guard), so any fuel of at least the input length is exact. -/
def mrun (fuel : Nat) (r : Rx) (s : List Char) (prev : Option Char) :
    List MRes :=
  match fuel, r with
  | _, .eps => [(s, prev, [])]
  | _, .cls f =>
    match s with
    | c :: t => if f c then [(t, some c, [])] else []
    | [] => []
  | _, .bdry =>
    let before := match prev with | some c => isWordC c | none => false
    let after := match s with | c :: _ => isWordC c | [] => false
    if before != after then [(s, prev, [])] else []
  | fuel, .seq a b =>
    (mrun fuel a s prev).flatMap fun r1 =>
      (mrun fuel b r1.1 r1.2.1).map fun r2 =>
        (r2.1, r2.2.1, r1.2.2 ++ r2.2.2)
  | fuel, .alt a b => mrun fuel a s prev ++ mrun fuel b s prev
  | 0, .star _ => [(s, prev, [])]
  | fuel + 1, .star r =>
    ((mrun fuel r s prev).flatMap fun r1 =>
      if r1.1.length = s.length then []
      else (mrun fuel (.star r) r1.1 r1.2.1).map fun r2 =>
        (r2.1, r2.2.1, r1.2.2 ++ r2.2.2)) ++ [(s, prev, [])]
  | 0, .lazyStar _ => [(s, prev, [])]
  | fuel + 1, .lazyStar r =>
    (s, prev, ([] : Caps)) :: ((mrun fuel r s prev).flatMap fun r1 =>
      if r1.1.length = s.length then []
      else (mrun fuel (.lazyStar r) r1.1 r1.2.1).map fun r2 =>
        (r2.1, r2.2.1, r1.2.2 ++ r2.2.2))
  | fuel, .rep lo hi r =>
    match lo, hi with
    | _, 0 => [(s, prev, [])]
    | 0, hi' + 1 =>
      ((mrun fuel r s prev).flatMap fun r1 =>
        (mrun fuel (.rep 0 hi' r) r1.1 r1.2.1).map fun r2 =>
          (r2.1, r2.2.1, r1.2.2 ++ r2.2.2)) ++ [(s, prev, [])]
    | lo' + 1, hi' + 1 =>
      (mrun fuel r s prev).flatMap fun r1 =>
        (mrun fuel (.rep lo' hi' r) r1.1 r1.2.1).map fun r2 =>
          (r2.1, r2.2.1, r1.2.2 ++ r2.2.2)
  | fuel, .grp name r =>
    (mrun fuel r s prev).map fun r1 =>
      (r1.1, r1.2.1, r1.2.2 ++ [(name, s.take (s.length - r1.1.length))])
termination_by (fuel, sizeOf r)

/-- A `re.search` match: offsets, matched text, captures. -/
structure MatchRes where
  matched : List Char
  caps : Caps
  mstart : Nat
  mend : Nat
deriving Repr

/-- Leftmost search: try an anchored run at each position; the head of
the candidate list is `re`'s match. -/
def rsearchAux (rx : Rx) : Nat → List Char → Option Char → Option MatchRes
  | i, s, prev =>
    match (mrun (s.length + 1) rx s prev).head? with
    | some r1 =>
      some { matched := s.take (s.length - r1.1.length), caps := r1.2.2
             mstart := i, mend := i + (s.length - r1.1.length) }
    | none =>
      match s with
      | [] => none
      | c :: t => rsearchAux rx (i + 1) t (some c)

/-- `pattern.search(text)`. -/
def rsearch (rx : Rx) (text : List Char) : Option MatchRes :=
  rsearchAux rx 0 text none

/-- `m.group(name)`: the last recorded capture of that name. -/
def capGet (caps : Caps) (name : String) : Option (List Char) :=
  (caps.reverse.find? (·.1 = name)).map (·.2)

/-- The group names a pattern *defines* — the key set of
`m.groupdict()`, which lists named groups whether or not they matched. -/
def rxNames : Rx → List String
  | .grp n r => n :: rxNames r
  | .seq a b => rxNames a ++ rxNames b
  | .alt a b => rxNames a ++ rxNames b
  | .star r => rxNames r
  | .lazyStar r => rxNames r
  | .rep _ _ r => rxNames r
  | _ => []

/-! ## The pattern catalog

`PATTERNS` below is the *runtime* value of the Python dict literal: a
duplicated key keeps its first position and its last value (this affects
`fees_and_charges.processing_fee`, `fees_and_charges.conversion_fee`,
`repayment.tenure`, `interest_rates.reset_frequency`,
`interest_rates.benchmark_rate` and `penal_charges.late_payment_penalty`).
Every pattern is compiled with `re.IGNORECASE`; anonymous capture groups
are transcribed as non-capturing, since the extractor reads only named
groups and `group(0)`.  Each definition is preceded by the original regex. -/

/-- `x?` for a literal. -/
def sOpt (s : String) : Rx := copt (lit s)

/-- The apostrophe character (spelled numerically). -/
def apos : Char := Char.ofNat 39

/-- `(?:₹|Rs\.?|INR)`. -/
def curM : Rx := alts [lit "₹", .seq (lit "Rs") (sOpt "."), lit "INR"]

/-- `(?:₹|Rs\.?)`. -/
def curM2 : Rx := alts [lit "₹", .seq (lit "Rs") (sOpt ".")]

/-- `(?:₹|Rs\.? )` (note the literal space). -/
def curM3 : Rx := alts [lit "₹", rxseq [lit "Rs", sOpt ".", lit " "]]

/-- `(?:Rs\.?|₹)`. -/
def curM4 : Rx := alts [.seq (lit "Rs") (sOpt "."), lit "₹"]

/-- The backtick currency class `` [`₹Rs\.] ``. -/
def btkCls : Rx := .cls fun c => c = btk || c = '₹' || eqCI c 'r' || eqCI c 's' || c = '.'

/-- `L|Lakh|Lac|Crore|Cr|K|Thousand`. -/
def unitAlt : Rx :=
  alts [lit "L", lit "Lakh", lit "Lac", lit "Crore", lit "Cr", lit "K", lit "Thousand"]

/-- `(?P<pct>[0-9]+(?:\.[0-9]+)?)`, `(?P<pct2>…)`, `(?P<amt>[0-9,]+)`. -/
def gpct : Rx := .grp "pct" rnum
def gpct2 : Rx := .grp "pct2" rnum
def gamt : Rx := .grp "amt" amtDigits

/-- `[:\-]?` and `[:\s]*`-style glue. -/
def colDash : Rx := copt (chs ":-")

/-- `PCT = (?P<pct>[0-9]+(?:\.[0-9]+)?)\s*%`. -/
def PCT : Rx := rxseq [gpct, rS, lit "%"]

/-- `MONEY = (?P<amt>(?:₹|Rs\.?|INR)?\s*[0-9,]+(?:\.[0-9]+)?\s*(?:L|Lakh|Lac|Crore|Cr|K|Thousand)?)`. -/
def MONEY : Rx :=
  .grp "amt" (rxseq [copt curM, rS, amtDigits,
    copt (.seq (.cls (· = '.')) digits1), rS, copt unitAlt])

/-- `years?|yrs?` pieces. -/
def yearsOpt : Rx := .seq (lit "year") (sOpt "s")
def yrsAlt : Rx := alts [.seq (lit "year") (sOpt "s"), .seq (lit "yr") (sOpt "s")]

def patsProcessingFee : List Rx :=
  [ -- Processing\s+Fees?\s+At\s+Once\s+Upto\s+(?P<pct>[0-9]+(?:\.[0-9]+)?)\s*%
    rxseq [lit "Processing", rSP, lit "Fee", sOpt "s", rSP, lit "At", rSP,
      lit "Once", rSP, lit "Upto", rSP, gpct, rS, lit "%"],
    -- Login\s*Fee[/\\]Processing\s*Fee\s+(?P<pct>…)\s*%\s*to\s*(?P<pct2>…)\s*%
    rxseq [lit "Login", rS, lit "Fee", chs "/\\", lit "Processing", rS,
      lit "Fee", rSP, gpct, rS, lit "%", rS, lit "to", rS, gpct2, rS, lit "%"],
    -- processing[^.]{0,50}fee[^.]{0,50}(?P<pct>…)\s*%
    rxseq [lit "processing", .rep 0 50 rnotDot, lit "fee", .rep 0 50 rnotDot,
      gpct, rS, lit "%"],
    -- (?:up\s*to|upto)\s*(?P<pct>…)\s*%\s*of\s*(?:the\s*)?loan\s*amount\s*or\s*(?:Rs\.?|₹)\s*(?P<amt>[0-9,]+)\s*whichever\s*is\s*(?P<which>higher|lower)
    rxseq [alts [rxseq [lit "up", rS, lit "to"], lit "upto"], rS, gpct, rS,
      lit "%", rS, lit "of", rS, copt (.seq (lit "the") rS), lit "loan", rS,
      lit "amount", rS, lit "or", rS, curM4, rS, gamt, rS, lit "whichever",
      rS, lit "is", rS, .grp "which" (alts [lit "higher", lit "lower"])],
    -- same without the `whichever` tail
    rxseq [alts [rxseq [lit "up", rS, lit "to"], lit "upto"], rS, gpct, rS,
      lit "%", rS, lit "of", rS, copt (.seq (lit "the") rS), lit "loan", rS,
      lit "amount", rS, lit "or", rS, curM4, rS, gamt],
    -- Processing\s*Fee[s]?\s*[:\-]?\s*  + PCT
    rxseq [lit "Processing", rS, lit "Fee", sOpt "s", rS, colDash, rS, PCT] ]

def patsAdministrativeFee : List Rx :=
  [ -- administrative\s+fee[:\s]*(?P<pct>…)\s*%
    rxseq [lit "administrative", rSP, lit "fee", colWs, gpct, rS, lit "%"],
    -- admin\s+fee[:\s]*(?:₹|Rs\.? )\s*(?P<amt>[0-9,]+)
    rxseq [lit "admin", rSP, lit "fee", colWs, curM3, rS, gamt],
    -- administrative\s*charges?[:\s]*(?P<pct>…)\s*%
    rxseq [lit "administrative", rS, lit "charge", sOpt "s", colWs, gpct, rS, lit "%"],
    -- administrative\s*charges?[:\s]*(?:₹|Rs\.?|INR)\s*(?P<amt>[0-9,]+)
    rxseq [lit "administrative", rS, lit "charge", sOpt "s", colWs, curM, rS, gamt],
    -- administrative.*?fee[:\s]*(?P<value>Template field.*?not specified)
    rxseq [lit "administrative", lazyDots, lit "fee", colWs,
      .grp "value" (rxseq [lit "Template field", lazyDots, lit "not specified"])],
    -- administrative.*?fee[:\s]*(?P<value>___+|______|_____)
    rxseq [lit "administrative", lazyDots, lit "fee", colWs,
      .grp "value" (alts [rxseq [lit "__", p1 (.cls (· = '_'))],
                          lit "______", lit "_____"])],
    -- administrative.*?fee[:\s]*(?P<value>\[.*?\])
    rxseq [lit "administrative", lazyDots, lit "fee", colWs,
      .grp "value" (rxseq [lit "[", lazyDots, lit "]"])],
    -- incidental\s*charges\s*and\s*expenses.*?as\s*per\s*actuals
    rxseq [lit "incidental", rS, lit "charges", rS, lit "and", rS,
      lit "expenses", lazyDots, lit "as", rS, lit "per", rS, lit "actuals"] ]

def patsLegalCharges : List Rx :=
  [ -- legal\s+charges[:\s]*(?:₹|Rs\.? )\s*(?P<amt>[0-9,]+)
    rxseq [lit "legal", rSP, lit "charges", colWs, curM3, rS, gamt],
    -- legal\s+fee[:\s]*(?P<pct>…)\s*%
    rxseq [lit "legal", rSP, lit "fee", colWs, gpct, rS, lit "%"],
    -- legal\s+charges?[:\s]*(?P<value>as\s*per\s*(?:actuals|applicable\s*law))
    rxseq [lit "legal", rSP, lit "charge", sOpt "s", colWs,
      .grp "value" (rxseq [lit "as", rS, lit "per", rS,
        alts [lit "actuals", rxseq [lit "applicable", rS, lit "law"]]])],
    -- legal\s*charges?\s*[:\-]\s*as\s*per\s*actuals
    rxseq [lit "legal", rS, lit "charge", sOpt "s", rS, chs ":-", rS,
      lit "as", rS, lit "per", rS, lit "actuals"] ]

def patsValuationCharges : List Rx :=
  [ -- valuation\s+charges?[:\s]*(?:₹|Rs\.?|INR)\s*(?P<amt>[0-9,]+)
    rxseq [lit "valuation", rSP, lit "charge", sOpt "s", colWs, curM, rS, gamt],
    -- valuation\s+fees?[:\s]*(?P<pct>…)\s*%
    rxseq [lit "valuation", rSP, lit "fee", sOpt "s", colWs, gpct, rS, lit "%"],
    -- valuation\s+charges?[:\s]*(?P<value>as\s*per\s*(?:actuals|applicable\s*law))
    rxseq [lit "valuation", rSP, lit "charge", sOpt "s", colWs,
      .grp "value" (rxseq [lit "as", rS, lit "per", rS,
        alts [lit "actuals", rxseq [lit "applicable", rS, lit "law"]]])],
    -- valuation\s*charges?\s*[:\-]\s*as\s*per\s*actuals
    rxseq [lit "valuation", rS, lit "charge", sOpt "s", rS, chs ":-", rS,
      lit "as", rS, lit "per", rS, lit "actuals"] ]

def patsConversionFee : List Rx :=
  [ -- (?P<pct>…)\s*%\s*of\s*the\s*Principal\s+Outstanding
    rxseq [gpct, rS, lit "%", rS, lit "of", rS, lit "the", rS,
      lit "Principal", rSP, lit "Outstanding"] ]

def patsPrepaymentPenalty : List Rx :=
  [ -- prepayment\s+penalty[:\s]*(?P<pct>…)\s*%
    rxseq [lit "prepayment", rSP, lit "penalty", colWs, gpct, rS, lit "%"],
    -- prepay\s+up\s+to\s+(?P<pct>[0-9]+)\s*%\s*of\s*the.*principal
    rxseq [lit "prepay", rSP, lit "up", rSP, lit "to", rSP,
      .grp "pct" digits1, rS, lit "%", rS, lit "of", rS, lit "the",
      .star rdot, lit "principal"],
    -- prepayment.*?penalty[:\s]*(?P<value>NIL|N\.A\.)
    rxseq [lit "prepayment", lazyDots, lit "penalty", colWs,
      .grp "value" (alts [lit "NIL", lit "N.A."])],
    -- (?P<value>[Nn]o\s+pre-?payment\s+penalty.*?floating.*?loans?)
    .grp "value" (rxseq [lit "no", rSP, lit "pre", sOpt "-", lit "payment",
      rSP, lit "penalty", lazyDots, lit "floating", lazyDots,
      lit "loan", sOpt "s"]),
    -- (?P<value>[Nn]o\s+penalty.*?levied.*?floating.*?home\s+loans?)
    .grp "value" (rxseq [lit "no", rSP, lit "penalty", lazyDots,
      lit "levied", lazyDots, lit "floating", lazyDots, lit "home", rSP,
      lit "loan", sOpt "s"]),
    -- prepayment.*?(?P<value>not\s+applicable|N/A)
    rxseq [lit "prepayment", lazyDots,
      .grp "value" (alts [rxseq [lit "not", rSP, lit "applicable"], lit "N/A"])] ]

def patsForeclosureCharges : List Rx :=
  [ -- foreclosure\s+charges?[:\s]*(?P<pct>…)\s*%
    rxseq [lit "foreclosure", rSP, lit "charge", sOpt "s", colWs, gpct, rS, lit "%"],
    -- pre.?closure\s+charges?[:\s]*(?P<pct>…)\s*%
    rxseq [lit "pre", copt rdot, lit "closure", rSP, lit "charge", sOpt "s",
      colWs, gpct, rS, lit "%"],
    -- foreclosure.*?charges?[:\s]*(?P<value>NIL|N\.A\.)
    rxseq [lit "foreclosure", lazyDots, lit "charge", sOpt "s", colWs,
      .grp "value" (alts [lit "NIL", lit "N.A."])],
    -- (?P<value>[Nn]o\s+pre-?closure\s+penalty.*?floating.*?loans?)
    .grp "value" (rxseq [lit "no", rSP, lit "pre", sOpt "-", lit "closure",
      rSP, lit "penalty", lazyDots, lit "floating", lazyDots,
      lit "loan", sOpt "s"]),
    -- (?P<value>[Nn]o\s+penalty.*?levied.*?floating.*?home\s+loans?)
    .grp "value" (rxseq [lit "no", rSP, lit "penalty", lazyDots,
      lit "levied", lazyDots, lit "floating", lazyDots, lit "home", rSP,
      lit "loan", sOpt "s"]),
    -- pre.?closure.*?(?P<value>not\s+applicable|N/A)
    rxseq [lit "pre", copt rdot, lit "closure", lazyDots,
      .grp "value" (alts [rxseq [lit "not", rSP, lit "applicable"], lit "N/A"])],
    -- foreclosure\s*charges?\s*[:\-]?\s*NIL\s*for\s*floating\s*rate\s*housing\s*loan
    rxseq [lit "foreclosure", rS, lit "charge", sOpt "s", rS, colDash, rS,
      lit "NIL", rS, lit "for", rS, lit "floating", rS, lit "rate", rS,
      lit "housing", rS, lit "loan"] ]

def patsLtvRatio : List Rx :=
  [ -- LTV[:\s]*(?:up\s+to\s+)?(?P<pct>[0-9]+)\s*%
    rxseq [lit "LTV", colWs, copt (rxseq [lit "up", rSP, lit "to", rSP]),
      .grp "pct" digits1, rS, lit "%"],
    -- loan\s+to\s+value[:\s]*(?P<pct>[0-9]+)\s*%
    rxseq [lit "loan", rSP, lit "to", rSP, lit "value", colWs,
      .grp "pct" digits1, rS, lit "%"],
    -- (?P<pct>[0-9]+)\s*%.*LTV
    rxseq [.grp "pct" digits1, rS, lit "%", .star rdot, lit "LTV"] ]

def patsMinimumIncome : List Rx :=
  [ -- minimum\s+income[:\s]*(?:₹|Rs\.?)\s*(?P<amt>[0-9,]+)
    rxseq [lit "minimum", rSP, lit "income", colWs, curM2, rS, gamt],
    -- income\s+requirement[:\s]*(?:₹|Rs\.?)\s*(?P<amt>[0-9,]+)
    rxseq [lit "income", rSP, lit "requirement", colWs, curM2, rS, gamt] ]

def patsCibilScore : List Rx :=
  [ -- CIBIL\s+score[:\s]*(?P<score>[0-9]+)
    rxseq [lit "CIBIL", rSP, lit "score", colWs, .grp "score" digits1],
    -- credit\s+score[:\s]*(?P<score>[0-9]+)
    rxseq [lit "credit", rSP, lit "score", colWs, .grp "score" digits1],
    -- minimum.*score[:\s]*(?P<score>[0-9]+)
    rxseq [lit "minimum", .star rdot, lit "score", colWs, .grp "score" digits1] ]

def patsAgeLimit : List Rx :=
  [ -- age\s+limit[:\s]*(?P<min_age>[0-9]+)(?:\s*to\s*(?P<max_age>[0-9]+))?\s*years?
    rxseq [lit "age", rSP, lit "limit", colWs, .grp "min_age" digits1,
      copt (rxseq [rS, lit "to", rS, .grp "max_age" digits1]), rS, yearsOpt],
    -- minimum\s+age[:\s]*(?P<min_age>[0-9]+)\s*years?
    rxseq [lit "minimum", rSP, lit "age", colWs, .grp "min_age" digits1, rS, yearsOpt],
    -- maximum\s+age[:\s]*(?P<max_age>[0-9]+)\s*years?
    rxseq [lit "maximum", rSP, lit "age", colWs, .grp "max_age" digits1, rS, yearsOpt],
    -- age\s*of\s*borrower[:\s]*(?P<min_age>[0-9]+)\s*[-–to]\s*(?P<max_age>[0-9]+)\s*years?
    rxseq [lit "age", rS, lit "of", rS, lit "borrower", colWs,
      .grp "min_age" digits1, rS, chs "-–to", rS, .grp "max_age" digits1,
      rS, yearsOpt] ]

def patsTenure : List Rx :=
  [ -- loan\s*tenure\s*[:\-]?\s*(?P<years>[0-9]+)\s*(?:years?|yrs?|months?)
    rxseq [lit "loan", rS, lit "tenure", rS, colDash, rS, .grp "years" digits1,
      rS, alts [.seq (lit "year") (sOpt "s"), .seq (lit "yr") (sOpt "s"),
                .seq (lit "month") (sOpt "s")]],
    -- tenure\s*[:\-]?\s*(?P<years>[0-9]+)\s*(?:years?|yrs?|months?)
    rxseq [lit "tenure", rS, colDash, rS, .grp "years" digits1, rS,
      alts [.seq (lit "year") (sOpt "s"), .seq (lit "yr") (sOpt "s"),
            .seq (lit "month") (sOpt "s")]],
    -- term\s*[:\-]?\s*(?P<years>[0-9]+)\s*(?:years?|yrs?|months?)
    rxseq [lit "term", rS, colDash, rS, .grp "years" digits1, rS,
      alts [.seq (lit "year") (sOpt "s"), .seq (lit "yr") (sOpt "s"),
            .seq (lit "month") (sOpt "s")]],
    -- repayment\s*period\s*[:\-]?\s*(?P<years>[0-9]+)\s*(?:years?|yrs?)
    rxseq [lit "repayment", rS, lit "period", rS, colDash, rS,
      .grp "years" digits1, rS, yrsAlt] ]

def patsTenureRange : List Rx :=
  [ -- (?P<min_years>[0-9]+)(?:\s*to\s*|\s*-\s*)(?P<max_years>[0-9]+)\s*(?:years?|yrs?)
    rxseq [.grp "min_years" digits1,
      alts [rxseq [rS, lit "to", rS], rxseq [rS, lit "-", rS]],
      .grp "max_years" digits1, rS, yrsAlt],
    -- (?P<min_years>[0-9]+)\s*[–\-]\s*(?P<max_years>[0-9]+)\s*(?:years?|yrs?)
    rxseq [.grp "min_years" digits1, rS, chs "–-", rS,
      .grp "max_years" digits1, rS, yrsAlt] ]

def patsResetFrequency : List Rx :=
  [ -- reset\s*(?:period|frequency)\s*[:\-]?\s*(?P<freq>monthly|quarterly|annually|yearly)
    rxseq [lit "reset", rS, alts [lit "period", lit "frequency"], rS, colDash,
      rS, .grp "freq" (alts [lit "monthly", lit "quarterly", lit "annually",
        lit "yearly"])],
    -- rate\s*change\s*[:\-]?\s*(?P<freq>monthly|quarterly|annually|yearly)
    rxseq [lit "rate", rS, lit "change", rS, colDash, rS,
      .grp "freq" (alts [lit "monthly", lit "quarterly", lit "annually",
        lit "yearly"])] ]

def patsBenchmarkRate : List Rx :=
  [ -- (?P<bench>RPLR|IHPLR|EBLR|REPO)\s*(?:linked|rate)?
    rxseq [.grp "bench" (alts [lit "RPLR", lit "IHPLR", lit "EBLR", lit "REPO"]),
      rS, copt (alts [lit "linked", lit "rate"])],
    -- Retail\s*Prime\s*Lending\s*Rate\s*\((?P<bench>RPLR)\)
    rxseq [lit "Retail", rS, lit "Prime", rS, lit "Lending", rS, lit "Rate",
      rS, lit "(", .grp "bench" (lit "RPLR"), lit ")"],
    -- (?P<bench>IHPLR)\s*=\s*[0-9\.]*\s*%\s*per\s*annum
    rxseq [.grp "bench" (lit "IHPLR"), rS, lit "=", rS,
      .star (.cls fun c => isDig c || c = '.'), rS, lit "%", rS, lit "per",
      rS, lit "annum"] ]

def patsRateChangeComm : List Rx :=
  [ -- (?P<value>HDFC.*?endeavor.*?informed.*?change.*?rates?[^.]*)
    .grp "value" (rxseq [lit "HDFC", lazyDots, lit "endeavor", lazyDots,
      lit "informed", lazyDots, lit "change", lazyDots, lit "rate",
      sOpt "s", .star rnotDot]),
    -- (?P<value>[Aa]ny\s+changes.*?interest\s+rate.*?detailed.*?[Cc]lause.*?[0-9]+.*?website[^.]*)
    .grp "value" (rxseq [lit "any", rSP, lit "changes", lazyDots,
      lit "interest", rSP, lit "rate", lazyDots, lit "detailed", lazyDots,
      lit "clause", lazyDots, digits1, lazyDots, lit "website",
      .star rnotDot]),
    -- (?P<value>[Cc]hanges.*?REPO\s+rate.*?notified.*?displayed.*?branch[^.]+[^.]+)
    .grp "value" (rxseq [lit "changes", lazyDots, lit "REPO", rSP,
      lit "rate", lazyDots, lit "notified", lazyDots, lit "displayed",
      lazyDots, lit "branch", p1 rnotDot, p1 rnotDot]),
    -- (?P<value>[Aa]\s+communication.*?borrower.*?registered.*?e-mail.*?SMS[^.]*)
    .grp "value" (rxseq [lit "a", rSP, lit "communication", lazyDots,
      lit "borrower", lazyDots, lit "registered", lazyDots, lit "e-mail",
      lazyDots, lit "SMS", .star rnotDot]),
    -- (?P<value>borrowers?.*?informed.*?(?:change|rate)[^.]*)
    .grp "value" (rxseq [lit "borrower", sOpt "s", lazyDots, lit "informed",
      lazyDots, alts [lit "change", lit "rate"], .star rnotDot]),
    -- (?P<value>shall.*?keep.*?informed.*?change.*?rate[^.]*)
    .grp "value" (rxseq [lit "shall", lazyDots, lit "keep", lazyDots,
      lit "informed", lazyDots, lit "change", lazyDots, lit "rate",
      .star rnotDot]),
    -- changes\s*in\s*the\s*adjustable\s*interest\s*rate\s*will\s*be\s*as\s*detailed\s*in\s*Clause\s*4
    rxseq [lit "changes", rS, lit "in", rS, lit "the", rS, lit "adjustable",
      rS, lit "interest", rS, lit "rate", rS, lit "will", rS, lit "be", rS,
      lit "as", rS, lit "detailed", rS, lit "in", rS, lit "Clause", rS,
      lit "4"] ]

def patsNotificationMethod : List Rx :=
  [ -- '?press\s+release'?.*?(?P<method>www\.[^\s]+)
    rxseq [copt (.cls (· = apos)), lit "press", rSP, lit "release",
      copt (.cls (· = apos)), lazyDots,
      .grp "method" (rxseq [lit "www.", p1 rnotWs])],
    -- notice\s+board.*?(?P<methods>[^.]{20,80})
    rxseq [lit "notice", rSP, lit "board", lazyDots,
      .grp "methods" (.rep 20 80 rnotDot)],
    -- (?P<methods>(?:website|email|sms|branch).*?(?:notification|communication)[^.]*)
    .grp "methods" (rxseq [alts [lit "website", lit "email", lit "sms",
      lit "branch"], lazyDots, alts [lit "notification", lit "communication"],
      .star rnotDot]),
    -- (?P<value>detailed.*?[Cc]lause.*?[0-9]+)
    .grp "value" (rxseq [lit "detailed", lazyDots, lit "clause", lazyDots,
      digits1]),
    -- notification.*method[:\s]*(?P<method>[\w\s,]+)
    rxseq [lit "notification", .star rdot, lit "method", colWs,
      .grp "method" (p1 rwsc)] ]

def patsRequiredDocuments : List Rx :=
  [ -- documents?\s+required[:\s]*(?P<docs>[\w\s,]+)
    rxseq [lit "document", sOpt "s", rSP, lit "required", colWs,
      .grp "docs" (p1 rwsc)],
    -- KYC\s+documents[:\s]*(?P<docs>[\w\s,]+)
    rxseq [lit "KYC", rSP, lit "documents", colWs, .grp "docs" (p1 rwsc)],
    -- property.*documents[:\s]*(?P<docs>[\w\s,]+)
    rxseq [lit "property", .star rdot, lit "documents", colWs,
      .grp "docs" (p1 rwsc)],
    -- (?:list\s+of\s+documents|supporting\s+proofs?)[:\s]*(?P<docs>.+)
    rxseq [alts [rxseq [lit "list", rSP, lit "of", rSP, lit "documents"],
      rxseq [lit "supporting", rSP, lit "proof", sOpt "s"]], colWs,
      .grp "docs" dotsPlus],
    -- (?:required|mandatory)\s+documents?[:\s]*(?P<docs>.+)
    rxseq [alts [lit "required", lit "mandatory"], rSP, lit "document",
      sOpt "s", colWs, .grp "docs" dotsPlus],
    -- welcome\s+pack[:\s]*(?P<docs>.+)
    rxseq [lit "welcome", rSP, lit "pack", colWs, .grp "docs" dotsPlus],
    -- supporting\s+proofs?[:\s]*(?P<docs>.+)
    rxseq [lit "supporting", rSP, lit "proof", sOpt "s", colWs,
      .grp "docs" dotsPlus],
    -- will\s*be\s*released\s*to\s*you\s*within\s*30\s*days\s*from\s*the\s*date\s*of\s*full\s*repayment
    rxseq [lit "will", rS, lit "be", rS, lit "released", rS, lit "to", rS,
      lit "you", rS, lit "within", rS, lit "30", rS, lit "days", rS,
      lit "from", rS, lit "the", rS, lit "date", rS, lit "of", rS,
      lit "full", rS, lit "repayment"],
    -- \bmiscellaneous\b
    rxseq [.bdry, lit "miscellaneous", .bdry] ]

def patsGrievanceProcess : List Rx :=
  [ -- grievance\s+(?:process|procedure|redressal)[:\s]*(?P<process>[\w\s,]+)
    rxseq [lit "grievance", rSP, alts [lit "process", lit "procedure",
      lit "redressal"], colWs, .grp "process" (p1 rwsc)],
    -- complaint\s+procedure[:\s]*(?P<process>[\w\s,]+)
    rxseq [lit "complaint", rSP, lit "procedure", colWs,
      .grp "process" (p1 rwsc)],
    -- customer\s+service[:\s]*(?P<process>[\w\s,]+)
    rxseq [lit "customer", rSP, lit "service", colWs,
      .grp "process" (p1 rwsc)] ]

def patsCustomerService : List Rx :=
  [ -- (?:nodal\s+officer|escalation\s+matrix?)[:\s]*(?P<contact>.+)
    rxseq [alts [rxseq [lit "nodal", rSP, lit "officer"],
      rxseq [lit "escalation", rSP, lit "matri", sOpt "x"]], colWs,
      .grp "contact" dotsPlus],
    -- nodal\s+officer\s+contact[:\s]*(?P<contact>.+)
    rxseq [lit "nodal", rSP, lit "officer", rSP, lit "contact", colWs,
      .grp "contact" dotsPlus],
    -- nhb\s+escalation[:\s]*(?P<contact>.+)
    rxseq [lit "nhb", rSP, lit "escalation", colWs, .grp "contact" dotsPlus],
    -- (?:NHB|national\s+housing\s+bank)\s+grievance
    rxseq [alts [lit "NHB", rxseq [lit "national", rSP, lit "housing", rSP,
      lit "bank"]], rSP, lit "grievance"] ]

def patsSanctionedAmount : List Rx :=
  [ -- sanctioned\s*amount\s*[:\-]?\s*  + MONEY
    rxseq [lit "sanctioned", rS, lit "amount", rS, colDash, rS, MONEY],
    -- loan\s*amount\s*[:\-]?\s*(?:up\s*to|maximum|upto)?\s*  + MONEY
    rxseq [lit "loan", rS, lit "amount", rS, colDash, rS,
      copt (alts [rxseq [lit "up", rS, lit "to"], lit "maximum", lit "upto"]),
      rS, MONEY],
    -- principal\s*amount\s*(?:of\s*the\s*)?(?:facility|loan)\s*[:\-]?\s*  + MONEY
    rxseq [lit "principal", rS, lit "amount", rS,
      copt (rxseq [lit "of", rS, lit "the", rS]),
      alts [lit "facility", lit "loan"], rS, colDash, rS, MONEY],
    -- facility\s*amount\s*(?:not\s*exceeding)?\s*[:\-\(]?\s*[`₹Rs\.]?\s*[0-9,]+
    rxseq [lit "facility", rS, lit "amount", rS,
      copt (rxseq [lit "not", rS, lit "exceeding"]), rS, copt (chs ":-("),
      rS, copt btkCls, rS, amtDigits],
    -- opening\s*principal\s*amount
    rxseq [lit "opening", rS, lit "principal", rS, lit "amount"] ]

def patsLoanAmountCurrency : List Rx :=
  [ -- currency\s*[:\-]?\s*(INR|₹|Rupees?)
    rxseq [lit "currency", rS, colDash, rS,
      alts [lit "INR", lit "₹", .seq (lit "Rupee") (sOpt "s")]],
    -- [`₹]\s*[0-9,]+
    rxseq [.cls (fun c => c = btk || c = '₹'), rS, amtDigits],
    -- Rupees\s+[A-Za-z\s]+Only
    rxseq [lit "Rupees", rSP,
      p1 (.cls fun c => isLowerAsc c || isUpperAsc c || isWs c), lit "Only"] ]

def patsEmiAmount : List Rx :=
  [ -- (?:the\s*)?amount\s*of\s*EMI\s*[:\-]?\s*(?:₹|Rs\.?|INR)\s*[0-9,]+(?:\.[0-9]+)?
    rxseq [copt (.seq (lit "the") rS), lit "amount", rS, lit "of", rS,
      lit "EMI", rS, colDash, rS, curM, rS, amtDigits,
      copt (.seq (.cls (· = '.')) digits1)],
    -- EMI\s*\(?[`₹Rs\.]?\)?\s*[:\-]?\s*(?:₹|Rs\.?|INR)\s*[0-9,]+
    rxseq [lit "EMI", rS, sOpt "(", copt btkCls, sOpt ")", rS, colDash, rS,
      curM, rS, amtDigits],
    -- (?:equated\s*)?monthly\s*installment\s*[:\-]?\s*(?:₹|Rs\.?|INR)\s*[0-9,]+(?:\.[0-9]+)?
    rxseq [copt (.seq (lit "equated") rS), lit "monthly", rS,
      lit "installment", rS, colDash, rS, curM, rS, amtDigits,
      copt (.seq (.cls (· = '.')) digits1)] ]

def patsEmiCurrency : List Rx :=
  [ -- EMI\s*\([`₹Rs\.]*\)
    rxseq [lit "EMI", rS, lit "(", .star btkCls, lit ")"] ]

def patsPrepaymentOption : List Rx :=
  [ -- prepay\s*up\s*to\s*(?P<pct>…)\s*%\s*of\s*the\s*(?:opening\s*)?principal
    rxseq [lit "prepay", rS, lit "up", rS, lit "to", rS, gpct, rS, lit "%",
      rS, lit "of", rS, lit "the", rS, copt (.seq (lit "opening") rS),
      lit "principal"],
    -- partial\s*prepayment\s*[:\-]?\s*(?P<pct>…)\s*%
    rxseq [lit "partial", rS, lit "prepayment", rS, colDash, rS, gpct, rS,
      lit "%"] ]

def patsMargin : List Rx :=
  [ -- (?:RPLR|IHPLR|EBLR)\s*[+\-]\s*(?P<pct>[0-9\.]+)\s*%
    rxseq [alts [lit "RPLR", lit "IHPLR", lit "EBLR"], rS, chs "+-", rS,
      .grp "pct" (p1 (.cls fun c => isDig c || c = '.')), rS, lit "%"],
    -- margin\s*of\s*[+\-]?\s*(?P<pct>[0-9\.]+)\s*%
    rxseq [lit "margin", rS, lit "of", rS, copt (chs "+-"), rS,
      .grp "pct" (p1 (.cls fun c => isDig c || c = '.')), rS, lit "%"] ]

def patsLatePayment : List Rx :=
  [ -- penal interest\s*@\s*(?P<pct>…)\s*%\s*p\.a\.
    rxseq [lit "penal interest", rS, lit "@", rS, gpct, rS, lit "%", rS,
      lit "p.a."],
    -- penal.*?interest.*?@\s*(?P<pct>…)\s*%(?:\s*(?:p\.a\.|per\s+annum))?
    rxseq [lit "penal", lazyDots, lit "interest", lazyDots, lit "@", rS,
      gpct, rS, lit "%", copt (.seq rS (alts [lit "p.a.",
        rxseq [lit "per", rSP, lit "annum"]]))],
    -- late payment charge[:\s]*(?P<pct>…)\s*%\s*p\.a\.
    rxseq [lit "late payment charge", colWs, gpct, rS, lit "%", rS, lit "p.a."],
    -- default interest rate[:\s]*(?P<pct>…)\s*%\s*over
    rxseq [lit "default interest rate", colWs, gpct, rS, lit "%", rS, lit "over"],
    -- penal interest[:\s]*(?P<pct>…)\s*%
    rxseq [lit "penal interest", colWs, gpct, rS, lit "%"],
    -- (?:a\s*)?maximum\s*(?:of\s*)?(?P<pct>…)\s*%\s*(?:p\.?a\.?|per\s+annum)\s*on\s*the\s*defaulted\s*(?:sum|amount)
    rxseq [copt (.seq (lit "a") rS), lit "maximum", rS,
      copt (.seq (lit "of") rS), gpct, rS, lit "%", rS,
      alts [rxseq [lit "p", sOpt ".", lit "a", sOpt "."],
            rxseq [lit "per", rSP, lit "annum"]], rS, lit "on", rS,
      lit "the", rS, lit "defaulted", rS, alts [lit "sum", lit "amount"]],
    -- bounce charge[:\s]*(?:₹|Rs\.?|INR)\s*(?P<amt>[0-9,]+)
    rxseq [lit "bounce charge", colWs, curM, rS, gamt] ]

def patsChequeBounce : List Rx :=
  [ -- cheque[/\\]?(?:ECS|NACH|payment\s*instrument)?\s*dishono?ur\s*charges[:\-,]*\s*per\s*transaction\s*[`₹Rs\.]*\s*(?P<amt>[0-9,]+)
    rxseq [lit "cheque", copt (chs "/\\"),
      copt (alts [lit "ECS", lit "NACH",
        rxseq [lit "payment", rS, lit "instrument"]]), rS, lit "dishon",
      sOpt "o", lit "ur", rS, lit "charges", .star (chs ":-,"), rS,
      lit "per", rS, lit "transaction", rS, .star btkCls, rS, gamt],
    -- bounce\s*(?:charge|penalty)\s*[:\-]?\s*[`₹Rs\.]*\s*(?P<amt>[0-9,]+)
    rxseq [lit "bounce", rS, alts [lit "charge", lit "penalty"], rS, colDash,
      rS, .star btkCls, rS, gamt] ]

def patsBankName : List Rx :=
  [ -- \b(?P<bank>HDFC|ICICI|SBI|DBS)\b
    rxseq [.bdry, .grp "bank" (alts [lit "HDFC", lit "ICICI", lit "SBI",
      lit "DBS"]), .bdry] ]

def patsFeeAmount : List Rx :=
  [ -- (?:₹|Rs\.?)\s*(?P<amt>[0-9,]+)
    rxseq [curM2, rS, gamt] ]

def patsBenchmark : List Rx :=
  [ -- (RPLR|IHPLR|EBLR|REPO)\s*(?:linked|rate)?
    rxseq [alts [lit "RPLR", lit "IHPLR", lit "EBLR", lit "REPO"], rS,
      copt (alts [lit "linked", lit "rate"])] ]

def patsSpread : List Rx :=
  [ -- (spread|margin)\s*(?:over)?\s*(RPLR|IHPLR|EBLR|REPO)?\s*[:\-]?\s*  + PCT
    rxseq [alts [lit "spread", lit "margin"], rS, copt (lit "over"), rS,
      copt (alts [lit "RPLR", lit "IHPLR", lit "EBLR", lit "REPO"]), rS,
      colDash, rS, PCT] ]

def patsPrepayCharge : List Rx :=
  [ -- (prepayment|pre\-?closure|foreclosure)\s*(?:charge|penalt(y|ies))\s*[:\-]?\s*  + PCT
    rxseq [alts [lit "prepayment", rxseq [lit "pre", sOpt "-", lit "closure"],
      lit "foreclosure"], rS, alts [lit "charge",
      .seq (lit "penalt") (alts [lit "y", lit "ies"])], rS, colDash, rS, PCT] ]

def patsTenureYears : List Rx :=
  [ -- (tenure|term)\s*(?:up to|upto|maximum|:)?\s*(?P<years>[0-9]{1,2})\s*(?:years|yrs)
    rxseq [alts [lit "tenure", lit "term"], rS,
      copt (alts [lit "up to", lit "upto", lit "maximum", lit ":"]), rS,
      .grp "years" (.rep 1 2 rdig), rS, alts [lit "years", lit "yrs"]] ]

def patsCreditScoreMin : List Rx :=
  [ -- (CIBIL|credit\s*score)\s*(?:min(?:imum)?|>=|≥|not\s*less\s*than)?\s*(?P<score>[0-9]{3})
    rxseq [alts [lit "CIBIL", rxseq [lit "credit", rS, lit "score"]], rS,
      copt (alts [.seq (lit "min") (sOpt "imum"), lit ">=", lit "≥",
        rxseq [lit "not", rS, lit "less", rS, lit "than"]]), rS,
      .grp "score" (.rep 3 3 rdig)] ]

def patsEffectiveDate : List Rx :=
  [ -- (Effective\s*from|Updated\s*on|Version\s*dated|Revised\s*on)\s*[:\-]?\s*(?P<date>[0-9]{1,2}[\-/][0-9]{1,2}[\-/][0-9]{2,4})
    rxseq [alts [rxseq [lit "Effective", rS, lit "from"],
      rxseq [lit "Updated", rS, lit "on"],
      rxseq [lit "Version", rS, lit "dated"],
      rxseq [lit "Revised", rS, lit "on"]], rS, colDash, rS,
      .grp "date" (rxseq [.rep 1 2 rdig, chs "-/", .rep 1 2 rdig, chs "-/",
        .rep 2 4 rdig])],
    -- … \s*[:\-]?\s*(?P<date>[A-Za-z]{3,9}\s+[0-9]{1,2},\s*[0-9]{4})
    rxseq [alts [rxseq [lit "Effective", rS, lit "from"],
      rxseq [lit "Updated", rS, lit "on"],
      rxseq [lit "Version", rS, lit "dated"],
      rxseq [lit "Revised", rS, lit "on"]], rS, colDash, rS,
      .grp "date" (rxseq [.rep 3 9 ralpha, rSP, .rep 1 2 rdig, lit ",", rS,
        .rep 4 4 rdig])] ]

def patsLtvTier : List Rx :=
  [ -- loan-to-value ratio[:\s]*up to\s*(?P<pct>[0-9]+)%\s*for loans up to
    rxseq [lit "loan-to-value ratio", colWs, lit "up to", rS,
      .grp "pct" digits1, lit "%", rS, lit "for loans up to"],
    -- LTV[:\s]*up to\s*(?P<pct>[0-9]+)%\s*for loans up to
    rxseq [lit "LTV", colWs, lit "up to", rS, .grp "pct" digits1, lit "%",
      rS, lit "for loans up to"],
    -- maximum LTV[:\s]*(?P<pct>[0-9]+)%\s*for loans up to
    rxseq [lit "maximum LTV", colWs, .grp "pct" digits1, lit "%", rS,
      lit "for loans up to"],
    -- (?P<pct>[0-9]+)%\s*-\s*up to\s*₹?\s*[0-9,]+
    rxseq [.grp "pct" digits1, lit "%", rS, lit "-", rS, lit "up to", rS,
      sOpt "₹", rS, amtDigits],
    -- LTV[:\s]*(?P<pct>[0-9]+)%
    rxseq [lit "LTV", colWs, .grp "pct" digits1, lit "%"],
    -- Loan[-\s]*to[-\s]*Value.*?Up\s*to\s*(?P<pct>[0-9]{1,3})%.*?(?:₹|Rs\.?|INR)\s*(?P<amt>[0-9,]+)\s*(?P<unit>L|Lakh|Lac|Crore|Cr|K|Thousand)?
    rxseq [lit "Loan", .star (.cls fun c => c = '-' || isWs c), lit "to",
      .star (.cls fun c => c = '-' || isWs c), lit "Value", lazyDots,
      lit "Up", rS, lit "to", rS, .grp "pct" (.rep 1 3 rdig), lit "%",
      lazyDots, curM, rS, gamt, rS, copt (.grp "unit" unitAlt)],
    -- LTV.*?Up\s*to\s*(?P<pct>[0-9]{1,3})%.*?(?:₹|Rs\.?|INR)\s*(?P<amt>[0-9,]+)\s*(?P<unit>L|Lakh|Lac|Crore|Cr|K|Thousand)?
    rxseq [lit "LTV", lazyDots, lit "Up", rS, lit "to", rS,
      .grp "pct" (.rep 1 3 rdig), lit "%", lazyDots, curM, rS, gamt, rS,
      copt (.grp "unit" unitAlt)] ]

def patsCompoundFee : List Rx :=
  [ -- (?P<pct>…)%\s*or\s*(?:Rs\.?|₹)\s*(?P<amt>[0-9,]+)\s*whichever is higher
    rxseq [gpct, lit "%", rS, lit "or", rS, curM4, rS, gamt, rS,
      lit "whichever is higher"],
    -- … whichever is lower
    rxseq [gpct, lit "%", rS, lit "or", rS, curM4, rS, gamt, rS,
      lit "whichever is lower"],
    -- (?P<pct>…)%\s*or\s*(?:Rs\.?|₹)\s*(?P<amt>[0-9,]+)
    rxseq [gpct, lit "%", rS, lit "or", rS, curM4, rS, gamt] ]

def patsInsurance : List Rx :=
  [ -- insurance coverage[:\s]*(?:₹|Rs\.?)\s*(?P<amt>[0-9,]+)\s*(?:lakhs?|lac?)\s*minimum
    rxseq [lit "insurance coverage", colWs, curM2, rS, gamt, rS,
      alts [.seq (lit "lakh") (sOpt "s"), .seq (lit "la") (sOpt "c")], rS,
      lit "minimum"],
    -- life insurance[:\s]*(?P<value>mandatory|compulsory|required)
    rxseq [lit "life insurance", colWs,
      .grp "value" (alts [lit "mandatory", lit "compulsory", lit "required"])],
    -- property insurance[:\s]*(?P<value>as per bank's requirement|mandatory)
    rxseq [lit "property insurance", colWs,
      .grp "value" (alts [rxseq [lit "as per bank", .cls (· = apos),
        lit "s requirement"], lit "mandatory"])],
    -- insurance.*?₹?\s*(?P<amt>[0-9,]+)\s*L(?:akh|ac)?\s*(?:minimum|min)?
    rxseq [lit "insurance", lazyDots, sOpt "₹", rS, gamt, rS, lit "L",
      copt (alts [lit "akh", lit "ac"]), rS,
      copt (alts [lit "minimum", lit "min"])] ]

def patsPrimarySecurity : List Rx :=
  [ -- primary\s*security[:\s]*(?P<value>property\s*mortgage|equitable\s*mortgage)
    rxseq [lit "primary", rS, lit "security", colWs,
      .grp "value" (alts [rxseq [lit "property", rS, lit "mortgage"],
        rxseq [lit "equitable", rS, lit "mortgage"]])],
    -- security[:\s]*(?P<value>equitable\s*mortgage|charge\s*on\s*property|hypothecation)
    rxseq [lit "security", colWs,
      .grp "value" (alts [rxseq [lit "equitable", rS, lit "mortgage"],
        rxseq [lit "charge", rS, lit "on", rS, lit "property"],
        lit "hypothecation"])],
    -- security\s*interest[:\s]*(?P<value>[^\n\r]{5,120})
    rxseq [lit "security", rS, lit "interest", colWs,
      .grp "value" (.rep 5 120 rnotNl)],
    -- security\s*of\s*the\s*loan.*?(?P<value>security\s*interest\s*on\s*the\s*property\s*being\s*financed)
    rxseq [lit "security", rS, lit "of", rS, lit "the", rS, lit "loan",
      lazyDots, .grp "value" (rxseq [lit "security", rS, lit "interest", rS,
        lit "on", rS, lit "the", rS, lit "property", rS, lit "being", rS,
        lit "financed"])],
    -- (?P<value>equitable\s+mortgage\s+of\s+the\s+property)
    .grp "value" (rxseq [lit "equitable", rSP, lit "mortgage", rSP, lit "of",
      rSP, lit "the", rSP, lit "property"]) ]

def patsSpecialCategories : List Rx :=
  [ -- NRI[:\s]*(?P<value>eligible|not eligible)
    rxseq [lit "NRI", colWs,
      .grp "value" (alts [lit "eligible", lit "not eligible"])],
    -- defense personnel[:\s]*(?P<value>special rates|eligible)
    rxseq [lit "defense personnel", colWs,
      .grp "value" (alts [lit "special rates", lit "eligible"])],
    -- government employees[:\s]*(?P<value>concessional rates|special rates)
    rxseq [lit "government employees", colWs,
      .grp "value" (alts [lit "concessional rates", lit "special rates"])] ]

def patsLockIn : List Rx :=
  [ -- lock[-\s]*in\s*period\s*[:\-]?\s*6\s*months\s*for\s*non[-\s]*individual\s*borrowers
    rxseq [lit "lock", .star (.cls fun c => c = '-' || isWs c), lit "in", rS,
      lit "period", rS, colDash, rS, lit "6", rS, lit "months", rS,
      lit "for", rS, lit "non", .star (.cls fun c => c = '-' || isWs c),
      lit "individual", rS, lit "borrowers"] ]

/-- The effective `PATTERNS` dict, in insertion order. -/
def PATTERNS : List (String × List Rx) :=
  [ ("fees_and_charges.processing_fee", patsProcessingFee),
    ("fees_and_charges.administrative_fee", patsAdministrativeFee),
    ("fees_and_charges.legal_charges", patsLegalCharges),
    ("fees_and_charges.valuation_charges", patsValuationCharges),
    ("fees_and_charges.conversion_fee", patsConversionFee),
    ("prepayment_and_foreclosure.prepayment_penalty", patsPrepaymentPenalty),
    ("prepayment_and_foreclosure.foreclosure_charges", patsForeclosureCharges),
    ("loan_amount_and_ltv.ltv_ratio", patsLtvRatio),
    ("eligibility.minimum_income", patsMinimumIncome),
    ("eligibility.cibil_score", patsCibilScore),
    ("eligibility.age_limit", patsAgeLimit),
    ("repayment.tenure", patsTenure),
    ("repayment.tenure_range", patsTenureRange),
    ("interest_rates.reset_frequency", patsResetFrequency),
    ("interest_rates.benchmark_rate", patsBenchmarkRate),
    ("interest_rates.rate_change_communication", patsRateChangeComm),
    ("interest_rates.notification_method", patsNotificationMethod),
    ("documents.required_documents", patsRequiredDocuments),
    ("grievance.process", patsGrievanceProcess),
    ("grievance.customer_service", patsCustomerService),
    ("loan_amount_and_ltv.sanctioned_amount", patsSanctionedAmount),
    ("loan_amount_and_ltv.loan_amount_currency", patsLoanAmountCurrency),
    ("repayment.emi_amount", patsEmiAmount),
    ("repayment.emi_currency", patsEmiCurrency),
    ("prepayment_and_foreclosure.prepayment_option", patsPrepaymentOption),
    ("interest_rates.margin", patsMargin),
    ("penal_charges.late_payment_penalty", patsLatePayment),
    ("penal_charges.cheque_bounce_charges", patsChequeBounce),
    ("document_info.bank_name", patsBankName),
    ("fees_and_charges.fee_amount", patsFeeAmount),
    ("interest_rates.benchmark", patsBenchmark),
    ("interest_rates.spread", patsSpread),
    ("prepayment_and_foreclosure.charge", patsPrepayCharge),
    ("repayment.tenure_years", patsTenureYears),
    ("eligibility.credit_score_min", patsCreditScoreMin),
    ("document_metadata.effective_date", patsEffectiveDate),
    ("loan_amount_and_ltv.ltv_tier", patsLtvTier),
    ("fees_and_charges.compound_processing_fee", patsCompoundFee),
    ("security_and_insurance.insurance_requirement", patsInsurance),
    ("security_and_insurance.primary_security", patsPrimarySecurity),
    ("eligibility.special_categories", patsSpecialCategories),
    ("prepayment_and_foreclosure.lock_in_period", patsLockIn) ]

/-! ## `RuleBasedExtractionService.extract` -/

/-- Python `str.title()` (ASCII model): a letter that follows a
non-letter is upper-cased, other letters lower-cased. -/
def pyTitle (l : List Char) : List Char :=
  go true l
where
  go : Bool → List Char → List Char
  | _, [] => []
  | atStart, c :: t =>
    let isAl := isLowerAsc c || isUpperAsc c
    (if isAl then (if atStart then uppC c else lowC c) else c) ::
      go (!isAl) t

/-- f-string interpolation of a possibly-`None` group (`None` renders as
the four letters "None"). -/
def gshow (o : Option (List Char)) : List Char :=
  match o with
  | some s => s
  | none => "None".data

/-- The value-synthesis chain of `extract` (source lines 412–459).
Groups accessed with `.strip()`/`.title()`/`.upper()` or used bare are
never optional in any catalog pattern, so the `getD []` defaults are
unreachable. -/
def synthValue (key : String) (defined : List String) (caps : Caps)
    (whole : List Char) : List Char :=
  let g := fun n => capGet caps n
  let has := fun n => defined.contains n
  if key = "loan_amount_and_ltv.ltv_tier" && has "pct" && has "amt" then
    -- unit = m.groupdict().get('unit') or ''
    let unit := (if has "unit" then g "unit" else none).getD []
    let unitStr := if unit.isEmpty then [] else ' ' :: unit
    pyStrip (gshow (g "pct") ++ "% up to ₹".data ++ gshow (g "amt") ++ unitStr)
  else if has "pct" && has "pct2" then
    gshow (g "pct") ++ "% to ".data ++ gshow (g "pct2") ++ ['%']
  else if has "pct" then gshow (g "pct") ++ ['%']
  else if has "amt" then pyStrip ((g "amt").getD [])
  else if has "freq" then pyTitle ((g "freq").getD [])
  else if has "years" then gshow (g "years") ++ " years".data
  else if has "bench" then pyUpper ((g "bench").getD [])
  else if has "bank" then pyUpper ((g "bank").getD [])
  else if has "score" then (g "score").getD []
  else if has "min_age" && has "max_age" &&
      !((g "max_age").getD []).isEmpty then
    gshow (g "min_age") ++ " to ".data ++ gshow (g "max_age") ++ " years".data
  else if has "min_age" then gshow (g "min_age") ++ " years minimum".data
  else if has "max_age" then gshow (g "max_age") ++ " years maximum".data
  else if has "min_years" && has "max_years" then
    gshow (g "min_years") ++ " to ".data ++ gshow (g "max_years") ++
      " years".data
  else if has "value" then pyTake 150 (pyStrip ((g "value").getD []))
  else if has "method" then pyTake 100 (pyStrip ((g "method").getD []))
  else if has "methods" then pyTake 100 (pyStrip ((g "methods").getD []))
  else if has "docs" then pyTake 100 (pyStrip ((g "docs").getD []))
  else if has "contact" then pyTake 150 (pyStrip ((g "contact").getD []))
  else if has "process" then pyTake 100 (pyStrip ((g "process").getD []))
  else if has "date" then (g "date").getD []
  else pyStrip whole

/-- `text[max(start-60, 0) : min(end+60, len)]`. -/
def snippetOf (text : List Char) (s e : Nat) : List Char :=
  (text.take (min (e + 60) text.length)).drop (s - 60)

/-- `f"{filename or 'document'}:~{m.start()}-{m.end()}"`. -/
def srcRef (filename : Option String) (s e : Nat) : String :=
  ⟨(filename.getD "document").data ++ ":~".data ++ natDigits s ++ '-' ::
    natDigits e⟩

/-- For each key: try the patterns in order and keep the first match
(`break` after the first success). -/
def firstMatch (text : List Char) : List Rx → Option (Rx × MatchRes)
  | [] => none
  | rx :: rest =>
    match rsearch rx text with
    | some m => some (rx, m)
    | none => firstMatch text rest

/-! JSON serialization of the LTV bands (`json.dumps`), with default
separators; no band field contains a character JSON needs to escape. -/

def jsonStr (x : String) : List Char := '"' :: x.data ++ ['"']

def jsonOptInt (o : Option ℤ) : List Char :=
  match o with | some n => intStr n | none => "null".data

def jsonOptStr (o : Option String) : List Char :=
  match o with | some x => jsonStr x | none => "null".data

def bandJson (b : Band) : List Char :=
  "\x7b\"min_amount\": ".data ++ jsonOptInt b.min_amount ++
  ", \"max_amount\": ".data ++ jsonOptInt b.max_amount ++
  ", \"unit\": ".data ++ jsonOptStr b.unit ++
  ", \"ltv\": ".data ++ jsonStr b.ltv ++ ['}']

def bandsJson (bs : List Band) : List Char :=
  '[' :: joinSep ", ".data (bs.map bandJson) ++ [']']

/-- The LTV-bands fact appended after the pattern loop (confidence 0.70,
inside a `try`/`except` that swallows the parser's `ValueError`). -/
def bandsFact (filename : Option String) (bands : List Band) : Fact :=
  { key := "loan_amount_and_ltv.ltv_bands"
    value := ⟨bandsJson bands⟩
    confidence := 7/10
    source_text := some "Detected LTV table in document text"
    source_reference := some ⟨(filename.getD "document").data ++
      ":~ltv_table".data⟩ }

/-- `RuleBasedExtractionService.extract`. -/
def extract (text : String) (filename : Option String) : List Fact :=
  if text.data.isEmpty then []
  else
    let loopFacts := PATTERNS.filterMap fun kp =>
      (firstMatch text.data kp.2).map fun rm =>
        ({ key := kp.1
           value := ⟨synthValue kp.1 (rxNames rm.1) rm.2.caps rm.2.matched⟩
           confidence := 3/4  -- rules are conservative
           source_text := some ⟨snippetOf text.data rm.2.mstart rm.2.mend⟩
           source_reference := some (srcRef filename rm.2.mstart rm.2.mend) }
          : Fact)
    match parse_ltv_table text with
    | .error _ => loopFacts        -- `except Exception: pass`
    | .ok [] => loopFacts          -- `if bands:` — empty list is falsy
    | .ok bands => loopFacts ++ [bandsFact filename bands]

/-! ## Claims -/

/-- C1: The spec's currency round-trip fails on the code.  The Lakh
pattern `([0-9,]+(?:\.[0-9]*)?)\s*L(?:akh?s?|ac?s?)` demands at least an
'a' after the 'L', and the Crore pattern demands "or" after "Cr", so the
bare "5L" and "2Cr" of the spec (and of the code's own comments
"# 5L, 5 Lakhs, 5Lac, 5Lacs", "# 2Cr, 2 Crores") match no currency
pattern and `normalize_value` returns them unchanged instead of
"INR 500,000" / "INR 20,000,000". -/
theorem currency_roundtrip_bare_units_unchanged :
    normalize_value "5L" "loan_amount_and_ltv.sanctioned_amount" = "5L" ∧
    normalize_value "2Cr" "loan_amount_and_ltv.sanctioned_amount" = "2Cr" ∧
    normalize_value "5L" "loan_amount_and_ltv.sanctioned_amount" ≠
      "INR 500,000" ∧
    normalize_value "2Cr" "loan_amount_and_ltv.sanctioned_amount" ≠
      "INR 20,000,000" ∧
    -- the spelled-out forms do convert, so the multipliers themselves
    -- are implemented
    normalize_value "5 Lakhs" "loan_amount_and_ltv.sanctioned_amount" =
      "INR 500,000" := by
  refine ⟨rfl, rfl, by decide, by decide, rfl⟩

/-- C2 (counterexample): key normalization is *not* idempotent on every
string.  The field "monthly_installment_x_installment" contains two
different synonyms of the canonical term `emi`; the first pass rewrites
only `monthly_installment` (first synonym found, then `break`), leaving
`installment`, which a second pass rewrites again. -/
theorem normalize_key_not_idempotent :
    normalize_key (normalize_key "monthly_installment_x_installment") ≠
      normalize_key "monthly_installment_x_installment" := by
  decide

/-- C2 (amended): key normalization is idempotent on keys whose field
contains at most one synonym occurrence — in particular on the
credit_score / term / foreclosure examples the claim cites — though not
on every string. -/
theorem normalize_key_idempotent_on_single_synonym_keys (k : String)
    (hk : k ∈ ["eligibility.credit_score", "repayment.term",
      "prepayment_and_foreclosure.foreclosure",
      "fees_and_charges.processing_fee", "x.cibil_score", "loan.ltv_ratio",
      "eligibility.bureau_score", "repayment.loan_term",
      "interest_rates.roi", "grievance.complaint"]) :
    normalize_key (normalize_key k) = normalize_key k := by
  fin_cases hk <;> decide

/-- Witness for the amended C2 theorem at the spec's own example. -/
theorem normalize_key_idempotent_witness :
    normalize_key (normalize_key "eligibility.credit_score") =
      normalize_key "eligibility.credit_score" :=
  normalize_key_idempotent_on_single_synonym_keys
    "eligibility.credit_score" (by decide)

/-- C3 (counterexample): value normalization is *not* idempotent, and the
spec's flagship compound-fee example is itself a counterexample: the
first pass yields "1.50% or ₹4,500 (use min)", which still matches the
`pct% or ₹amt` prefix pattern, so a second pass rewrites it to
"1.50% (min ₹4,500)". -/
theorem normalize_value_not_idempotent :
    normalize_value
        (normalize_value "1.50% or ₹4,500 whichever is higher"
          "fees_and_charges.processing_fee")
        "fees_and_charges.processing_fee" ≠
      normalize_value "1.50% or ₹4,500 whichever is higher"
        "fees_and_charges.processing_fee" := by
  decide

/-- C3 (amended): value normalization is idempotent on the currency,
percentage, numeric and text outputs (representative pairs below), but
not on the special-cased compound forms. -/
theorem normalize_value_idempotent_on_plain_values (vk : String × String)
    (h : vk ∈ [("5 Lakhs", "loan_amount_and_ltv.sanctioned_amount"),
      ("INR 500,000", "loan_amount_and_ltv.sanctioned_amount"),
      ("5 percent", "interest_rates.margin"),
      ("2%", "interest_rates.margin"),
      ("36", "repayment.tenure"),
      ("hello world", "grievance.process"),
      ("up to 5%", "interest_rates.cap")]) :
    normalize_value (normalize_value vk.1 vk.2) vk.2 =
      normalize_value vk.1 vk.2 := by
  fin_cases h <;> decide

/-- Witness for the amended C3 theorem. -/
theorem normalize_value_idempotent_witness :
    normalize_value
        (normalize_value "5 Lakhs" "loan_amount_and_ltv.sanctioned_amount")
        "loan_amount_and_ltv.sanctioned_amount" =
      normalize_value "5 Lakhs" "loan_amount_and_ltv.sanctioned_amount" :=
  normalize_value_idempotent_on_plain_values
    ("5 Lakhs", "loan_amount_and_ltv.sanctioned_amount") (by decide)

/-- C8: the table parser is *not* total: on the text "5% ," the `LTV_ROW`
regex matches with the lower-bound group capturing ",", and
`_to_int` then calls `int("")` after stripping commas, raising
`ValueError` — although the parser is documented as best-effort and the
spec says it must never raise.  On band-free text it does return the
empty sequence. -/
theorem parse_ltv_table_raises_on_comma_capture :
    parse_ltv_table "5% ," = .error () ∧
    parse_ltv_table "no bands here" = .ok [] ∧
    parse_ltv_table "" = .ok [] := by
  refine ⟨rfl, rfl, rfl⟩

/-- C10: `normalize_single_fact` rebuilds the fact from exactly six
constructor arguments: key and value are normalized, confidence,
source_page, source_text and coordinates are copied, and
`source_reference` and `effective_date` silently take their `None`
defaults — the rule extractor's evidence pointer is dropped. -/
theorem normalize_single_fact_frame (fact : Fact) :
    (normalize_single_fact fact).key = normalize_key fact.key ∧
    (normalize_single_fact fact).value =
      normalize_value fact.value fact.key ∧
    (normalize_single_fact fact).confidence = fact.confidence ∧
    (normalize_single_fact fact).source_page = fact.source_page ∧
    (normalize_single_fact fact).source_text = fact.source_text ∧
    (normalize_single_fact fact).coordinates = fact.coordinates ∧
    (normalize_single_fact fact).source_reference = none ∧
    (normalize_single_fact fact).effective_date = none :=
  ⟨rfl, rfl, rfl, rfl, rfl, rfl, rfl, rfl⟩

/-- C9 (counterexample): not every fact returned by `extract` has
confidence 0.75.  On the text "5%" the band parser finds one band, so
`extract` appends the `loan_amount_and_ltv.ltv_bands` fact — whose
confidence is hard-coded to 0.70. -/
theorem extract_confidence_not_always_three_quarters :
    ∃ f ∈ extract "5%" (some "doc.pdf"), f.confidence ≠ 3/4 := by
  have hp : parse_ltv_table "5%" =
      .ok [{ min_amount := none, max_amount := none, unit := none,
             ltv := "5%" }] := rfl
  refine ⟨bandsFact (some "doc.pdf")
    [{ min_amount := none, max_amount := none, unit := none, ltv := "5%" }],
    ?_, by decide⟩
  unfold extract
  rw [hp]
  exact List.mem_append_right _ (List.mem_singleton.mpr rfl)

/-- C9 (amended): every fact produced by the per-key pattern loop has
confidence exactly 0.75; the only other fact `extract` can return is the
LTV-bands fact, which has confidence 0.70. -/
theorem extract_confidence_dichotomy (text : String)
    (filename : Option String) :
    ∀ f ∈ extract text filename, f.confidence = 3/4 ∨
      (f.key = "loan_amount_and_ltv.ltv_bands" ∧ f.confidence = 7/10) := by
  intro f hf
  unfold extract at hf
  by_cases he : text.data.isEmpty
  · rw [if_pos he] at hf
    cases hf
  · rw [if_neg he] at hf
    have hloop : ∀ g ∈ PATTERNS.filterMap (fun kp =>
        (firstMatch text.data kp.2).map fun rm =>
          ({ key := kp.1
             value := ⟨synthValue kp.1 (rxNames rm.1) rm.2.caps rm.2.matched⟩
             confidence := 3/4
             source_text := some ⟨snippetOf text.data rm.2.mstart rm.2.mend⟩
             source_reference :=
               some (srcRef filename rm.2.mstart rm.2.mend) } : Fact)),
        g.confidence = 3/4 := by
      intro g hg
      obtain ⟨kp, -, hkp⟩ := List.mem_filterMap.mp hg
      obtain ⟨rm, -, rfl⟩ := Option.map_eq_some'.mp hkp
      rfl
    cases hpt : parse_ltv_table text with
    | error e => rw [hpt] at hf; exact Or.inl (hloop f hf)
    | ok bands =>
      rw [hpt] at hf
      cases bands with
      | nil => exact Or.inl (hloop f hf)
      | cons b bs =>
        rcases List.mem_append.mp hf with h | h
        · exact Or.inl (hloop f h)
        · rcases List.mem_singleton.mp h with rfl
          exact Or.inr ⟨rfl, rfl⟩

/-- Witness for the amended C9 theorem: the bands fact of the text "5%"
falls into the 0.70 branch of the dichotomy. -/
theorem extract_confidence_dichotomy_witness :
    (bandsFact (some "doc.pdf")
        [{ min_amount := none, max_amount := none, unit := none,
           ltv := "5%" }]).confidence = 3/4 ∨
    ((bandsFact (some "doc.pdf")
        [{ min_amount := none, max_amount := none, unit := none,
           ltv := "5%" }]).key = "loan_amount_and_ltv.ltv_bands" ∧
     (bandsFact (some "doc.pdf")
        [{ min_amount := none, max_amount := none, unit := none,
           ltv := "5%" }]).confidence = 7/10) := by
  apply extract_confidence_dichotomy "5%" (some "doc.pdf")
  unfold extract
  rw [show parse_ltv_table "5%" =
      .ok [{ min_amount := none, max_amount := none, unit := none,
             ltv := "5%" }] from rfl]
  exact List.mem_append_right _ (List.mem_singleton.mpr rfl)

/-- Splitting a list at the first '.' and re-joining gives the list
back. -/
lemma splitFirst_dot_rejoin (l : List Char) :
    ∀ a b, splitFirst l ['.'] = some (a, b) → a ++ '.' :: b = l := by
  induction l with
  | nil => intro a b h; simp [splitFirst] at h
  | cons c t ih =>
    intro a b h
    rw [splitFirst] at h
    by_cases hp : ['.'].isPrefixOf (c :: t)
    · rw [if_pos hp] at h
      have hc : c = '.' := by
        have := hp
        simp [List.isPrefixOf] at this
        exact this.symm
      subst hc
      cases h
      rfl
    · rw [if_neg hp] at h
      cases hfs : splitFirst t ['.'] with
      | none => rw [hfs] at h; cases h
      | some ab =>
        rw [hfs] at h
        cases h
        simpa using ih ab.1 ab.2 hfs

/-- `found_terms` is just the multiset of fact keys: the split/re-join in
`_analyze_gaps` is the identity. -/
lemma foundTerms_map_key (facts : List Fact) :
    foundTerms facts = facts.map (·.key) := by
  unfold foundTerms
  apply List.map_congr_left
  intro f _
  cases hs : splitFirst f.key.data ['.'] with
  | none => rfl
  | some ab =>
    have := splitFirst_dot_rejoin f.key.data ab.1 ab.2 hs
    show String.mk (ab.1 ++ '.' :: ab.2) = f.key
    rw [this]

lemma foundTerms_contains_iff (facts : List Fact) (k : String) :
    (foundTerms facts).contains k = true ↔ ∃ f ∈ facts, f.key = k := by
  rw [foundTerms_map_key]
  simp [List.contains_iff_exists_mem_beq, beq_iff_eq, List.mem_map]

/-- C7: if the rule facts cover `fees_and_charges.processing_fee` and
none of them has key `fees_and_charges.administrative_fee`, then
`analyze_gaps` reports `administrative_fee` as missing under
`fees_and_charges` and reports `processing_fee` nowhere. -/
theorem analyze_gaps_reports_missing_not_found (facts : List Fact)
    (hcov : ∃ f ∈ facts, f.key = "fees_and_charges.processing_fee")
    (hmiss : ∀ f ∈ facts, f.key ≠ "fees_and_charges.administrative_fee") :
    (∃ e ∈ analyze_gaps facts,
       e.1 = "fees_and_charges" ∧ "administrative_fee" ∈ e.2) ∧
    ∀ e ∈ analyze_gaps facts, "processing_fee" ∉ e.2 := by
  have hadm : (foundTerms facts).contains
      ("fees_and_charges" ++ "." ++ "administrative_fee") = false := by
    rw [Bool.eq_false_iff]
    intro hc
    obtain ⟨f, hf, hk⟩ := (foundTerms_contains_iff facts _).mp hc
    exact hmiss f hf hk
  have hproc : (foundTerms facts).contains
      ("fees_and_charges" ++ "." ++ "processing_fee") = true := by
    apply (foundTerms_contains_iff facts _).mpr
    obtain ⟨f, hf, hk⟩ := hcov
    exact ⟨f, hf, hk⟩
  constructor
  · -- the fees_and_charges entry is produced and lists administrative_fee
    have hmem : "administrative_fee" ∈
        (["processing_fee", "administrative_fee", "legal_charges",
          "valuation_charges"] : List String).filter fun term =>
          !(foundTerms facts).contains ("fees_and_charges" ++ "." ++ term) := by
      apply List.mem_filter.mpr
      refine ⟨by decide, ?_⟩
      rw [hadm]
      rfl
    refine ⟨("fees_and_charges",
      (["processing_fee", "administrative_fee", "legal_charges",
        "valuation_charges"] : List String).filter fun term =>
        !(foundTerms facts).contains ("fees_and_charges" ++ "." ++ term)),
      ?_, rfl, hmem⟩
    unfold analyze_gaps
    apply List.mem_filterMap.mpr
    refine ⟨("fees_and_charges",
      ["processing_fee", "administrative_fee", "legal_charges",
       "valuation_charges"]), by decide, ?_⟩
    have hne : (((["processing_fee", "administrative_fee", "legal_charges",
        "valuation_charges"] : List String).filter fun term =>
        !(foundTerms facts).contains
          ("fees_and_charges" ++ "." ++ term))).isEmpty = false := by
      rcases h : (["processing_fee", "administrative_fee", "legal_charges",
        "valuation_charges"] : List String).filter (fun term =>
        !(foundTerms facts).contains ("fees_and_charges" ++ "." ++ term)) with
        _ | _
      · rw [h] at hmem; cases hmem
      · rfl
    simp only [hne]
    rfl
  · -- processing_fee never appears in a missing list
    intro e he hpf
    unfold analyze_gaps at he
    obtain ⟨st, hst, hfn⟩ := List.mem_filterMap.mp he
    dsimp only at hfn
    split at hfn
    · cases hfn
    · cases hfn
      obtain ⟨hts, hpred⟩ := List.mem_filter.mp hpf
      fin_cases hst
      · -- fees_and_charges: contradicts coverage
        rw [hproc] at hpred
        cases hpred
      all_goals exact absurd hts (by decide)
/-- Witness for C7 at a one-fact list. -/
theorem analyze_gaps_reports_missing_witness :
    (∃ e ∈ analyze_gaps
        [{ key := "fees_and_charges.processing_fee", value := "1%",
           confidence := 3/4 }],
       e.1 = "fees_and_charges" ∧ "administrative_fee" ∈ e.2) ∧
    ∀ e ∈ analyze_gaps
        [{ key := "fees_and_charges.processing_fee", value := "1%",
           confidence := 3/4 }],
      "processing_fee" ∉ e.2 :=
  analyze_gaps_reports_missing_not_found _
    ⟨_, List.mem_singleton.mpr rfl, rfl⟩
    (by intro f hf; rcases List.mem_singleton.mp hf with rfl; decide)

/-- Every record emitted by the range detector is an
`overlapping_ranges` record. -/
lemma detect_range_conflicts_ctype (facts : List Fact) :
    ∀ c ∈ detect_range_conflicts facts, c.ctype = "overlapping_ranges" := by
  intro c hc
  unfold detect_range_conflicts at hc
  obtain ⟨cg, -, hcg⟩ := List.mem_flatMap.mp hc
  split at hcg
  · obtain ⟨rp, -, hrp⟩ := List.mem_filterMap.mp hcg
    split at hrp
    · cases hrp; rfl
    · cases hrp
  · cases hcg

/-- Every record emitted by the per-key group detector is a
`value_contradiction` record. -/
lemma detect_group_conflicts_ctype (k : String) (fs : List Fact) :
    ∀ c ∈ detect_group_conflicts k fs, c.ctype = "value_contradiction" := by
  intro c hc
  unfold detect_group_conflicts at hc
  obtain ⟨fp, -, hfp⟩ := List.mem_filterMap.mp hc
  split at hfp
  · cases hfp; rfl
  · cases hfp

/-- Two same-key facts group into a single two-element group. -/
lemma groupByKey_pair (f1 f2 : Fact) (hkey : f1.key = f2.key) :
    groupByKey [f1, f2] = [(f1.key, [f1, f2])] := by
  simp [groupByKey, insertGrouped, hkey]

/-- C5: for two facts with the same key whose values strip-parse to
numbers with positive maximum, `detect_conflicts` emits a
`value_contradiction` record iff the numbers differ by more than 10% of
the larger one, and that record's severity is "high" exactly when the
confidences differ by less than 0.2 (else "medium"). -/
theorem numeric_value_contradiction_rule (f1 f2 : Fact) (n1 n2 : ℚ)
    (hkey : f1.key = f2.key)
    (h1 : pyFloatParse (stripNonNum f1.value.data) = some n1)
    (h2 : pyFloatParse (stripNonNum f2.value.data) = some n2)
    (hmax : 0 < max n1 n2) :
    ((∃ c ∈ detect_conflicts [f1, f2], c.ctype = "value_contradiction") ↔
       |n1 - n2| > max n1 n2 / 10) ∧
    ∀ c ∈ detect_conflicts [f1, f2], c.ctype = "value_contradiction" →
      c.sev = if |f1.confidence - f2.confidence| < 1/5 then "high"
              else "medium" := by
  -- the pairwise comparison decides the 10%-of-max condition
  have hb : values_conflict f1.value f2.value = true ↔
      |n1 - n2| > max n1 n2 / 10 := by
    unfold values_conflict
    by_cases hv : f1.value = f2.value
    · rw [if_pos hv]
      rw [hv] at h1
      rw [h1] at h2
      cases h2
      refine iff_of_false (by simp) ?_
      intro hcon
      rw [gt_iff_lt, sub_self, abs_zero] at hcon
      have : (0:ℚ) < max n1 n1 / 10 := div_pos hmax (by norm_num)
      exact absurd hcon (by linarith)
    · rw [if_neg hv, h1, h2]
      dsimp only
      rw [if_pos hmax, decide_eq_true_eq]
      constructor
      · intro h
        rw [gt_iff_lt, lt_div_iff hmax] at h
        rw [gt_iff_lt, div_lt_iff (by norm_num : (0:ℚ) < 10)]
        linarith
      · intro h
        rw [gt_iff_lt, div_lt_iff (by norm_num : (0:ℚ) < 10)] at h
        rw [gt_iff_lt, lt_div_iff hmax]
        linarith
  have hdc : detect_conflicts [f1, f2] =
      detect_group_conflicts f1.key [f1, f2] ++
        detect_range_conflicts [f1, f2] := by
    unfold detect_conflicts
    rw [groupByKey_pair f1 f2 hkey]
    simp
  have hgc : detect_group_conflicts f1.key [f1, f2] =
      if values_conflict f1.value f2.value then
        [.value_contradiction f1.key [f1.value, f2.value]
          [f1.source_text, f2.source_text] [f1.confidence, f2.confidence]
          (if |f1.confidence - f2.confidence| < 1/5 then "high"
           else "medium")]
      else [] := by
    unfold detect_group_conflicts ordPairs
    cases hvb : values_conflict f1.value f2.value <;>
      simp [List.filterMap, hvb]
  constructor
  · constructor
    · rintro ⟨c, hc, hty⟩
      rw [hdc] at hc
      rcases List.mem_append.mp hc with hg | hr
      · rw [hgc] at hg
        by_cases hvb : values_conflict f1.value f2.value
        · exact hb.mp hvb
        · rw [if_neg hvb] at hg; cases hg
      · have := detect_range_conflicts_ctype [f1, f2] c hr
        rw [this] at hty
        exact absurd hty (by decide)
    · intro h
      have hvb := hb.mpr h
      refine ⟨.value_contradiction f1.key [f1.value, f2.value]
        [f1.source_text, f2.source_text] [f1.confidence, f2.confidence]
        (if |f1.confidence - f2.confidence| < 1/5 then "high"
         else "medium"), ?_, rfl⟩
      rw [hdc]
      apply List.mem_append_left
      rw [hgc, if_pos hvb]
      exact List.mem_singleton.mpr rfl
  · intro c hc hty
    rw [hdc] at hc
    rcases List.mem_append.mp hc with hg | hr
    · rw [hgc] at hg
      split at hg
      · rcases List.mem_singleton.mp hg with rfl
        rfl
      · cases hg
    · have := detect_range_conflicts_ctype [f1, f2] c hr
      rw [this] at hty
      exact absurd hty (by decide)

/-- Witness for C5 at the spec's fixture: "2%" vs "2.5%" under
`interest_rates.margin`, both confidence 0.8 — the pair conflicts
(0.5 > 0.25) and every such record is `high` (confidence gap 0 < 0.2). -/
theorem numeric_value_contradiction_witness :
    ((∃ c ∈ detect_conflicts
        [{ key := "interest_rates.margin", value := "2%", confidence := 4/5 },
         { key := "interest_rates.margin", value := "2.5%",
           confidence := 4/5 }], c.ctype = "value_contradiction") ↔
       |(2:ℚ) - 5/2| > max 2 (5/2) / 10) ∧
    ∀ c ∈ detect_conflicts
        [{ key := "interest_rates.margin", value := "2%", confidence := 4/5 },
         { key := "interest_rates.margin", value := "2.5%",
           confidence := 4/5 }], c.ctype = "value_contradiction" →
      c.sev = if |(4/5 : ℚ) - 4/5| < 1/5 then "high" else "medium" :=
  numeric_value_contradiction_rule
    { key := "interest_rates.margin", value := "2%", confidence := 4/5 }
    { key := "interest_rates.margin", value := "2.5%", confidence := 4/5 }
    2 (5/2) rfl (by decide) (by decide) (by norm_num)

/-- C6 (counterexample): the claimed "exactly one overlapping_ranges
conflict for that pair" fails when the two keys share a second range
keyword.  "mortgage_interest_rate" contains both "interest_rate" and
"age" (inside "mortgage"), so the up-to-5% / minimum-10% pair is
compared once per category and two conflicts are emitted. -/
theorem range_conflict_not_unique_per_pair :
    ((detect_conflicts
        [{ key := "mortgage_interest_rate.cap", value := "up to 5%",
           confidence := 4/5 },
         { key := "mortgage_interest_rate.floor", value := "minimum 10%",
           confidence := 4/5 }]).filter
      (fun c => c.ctype == "overlapping_ranges")).length = 2 := by
  decide

/-- The per-key half of `detect_conflicts` only produces
`value_contradiction` records. -/
lemma detect_conflicts_group_part_ctype (facts : List Fact) :
    ∀ c ∈ (groupByKey facts).flatMap (fun kg =>
      if 1 < kg.2.length then detect_group_conflicts kg.1 kg.2 else []),
      c.ctype = "value_contradiction" := by
  intro c hc
  obtain ⟨kg, -, h⟩ := List.mem_flatMap.mp hc
  split at h
  · exact detect_group_conflicts_ctype _ _ c h
  · cases h

/-- C6 (amended): the "up to 5%" / "minimum 10%" pair produces exactly
one `overlapping_ranges` conflict, of severity "high", provided
`interest_rate` is the only range keyword occurring in the two keys (one
conflict is emitted per shared range category in general). -/
theorem range_contradiction_single_category (f1 f2 : Fact)
    (hv1 : f1.value = "up to 5%") (hv2 : f2.value = "minimum 10%")
    (hk1 : containsSub (pyLower f1.key.data) "interest_rate".data = true)
    (hk2 : containsSub (pyLower f2.key.data) "interest_rate".data = true)
    (hltv1 : containsSub (pyLower f1.key.data) "ltv".data = false)
    (hltv2 : containsSub (pyLower f2.key.data) "ltv".data = false)
    (hpf1 : containsSub (pyLower f1.key.data) "processing_fee".data = false)
    (hpf2 : containsSub (pyLower f2.key.data) "processing_fee".data = false)
    (hage1 : containsSub (pyLower f1.key.data) "age".data = false)
    (hage2 : containsSub (pyLower f2.key.data) "age".data = false)
    (hinc1 : containsSub (pyLower f1.key.data) "income".data = false)
    (hinc2 : containsSub (pyLower f2.key.data) "income".data = false)
    (hten1 : containsSub (pyLower f1.key.data) "tenure".data = false)
    (hten2 : containsSub (pyLower f2.key.data) "tenure".data = false) :
    ((detect_conflicts [f1, f2]).filter
      (fun c => c.ctype == "overlapping_ranges")).length = 1 ∧
    ∀ c ∈ detect_conflicts [f1, f2], c.ctype = "overlapping_ranges" →
      c.sev = "high" := by
  have hgroups : buildRangeGroups [f1, f2] = [("interest_rate", [f1, f2])] := by
    simp [buildRangeGroups, RANGE_KEYWORDS, insertGrouped, hltv1, hltv2,
      hk1, hk2, hpf1, hpf2, hage1, hage2, hinc1, hinc2, hten1, hten2]
  have e1 : extractRangesOne f1 =
      some ⟨f1, 0, some 5, "upper_bound"⟩ := by
    unfold extractRangesOne mkBound
    rw [hv1]
    rfl
  have e2 : extractRangesOne f2 =
      some ⟨f2, 10, none, "lower_bound"⟩ := by
    unfold extractRangesOne mkBound
    rw [hv2]
    rfl
  have hranges : extract_ranges [f1, f2] =
      [⟨f1, 0, some 5, "upper_bound"⟩, ⟨f2, 10, none, "lower_bound"⟩] := by
    simp [extract_ranges, e1, e2]
  have hcontra : ranges_overlap_contradictory
      ⟨f1, 0, some 5, "upper_bound"⟩ ⟨f2, 10, none, "lower_bound"⟩ = true := by
    rfl
  have hrc : detect_range_conflicts [f1, f2] =
      [.overlapping_ranges "interest_rate"
        [⟨f1, 0, some 5, "upper_bound"⟩, ⟨f2, 10, none, "lower_bound"⟩]
        "high" "Mark as SUSPECT - contradictory range information"] := by
    unfold detect_range_conflicts
    rw [hgroups]
    simp [hranges, ordPairs, hcontra]
  have hgpart := detect_conflicts_group_part_ctype [f1, f2]
  have hfilterg : ((groupByKey [f1, f2]).flatMap (fun kg =>
      if 1 < kg.2.length then detect_group_conflicts kg.1 kg.2 else
        [])).filter (fun c => c.ctype == "overlapping_ranges") = [] := by
    apply List.filter_eq_nil_iff.mpr
    intro c hc
    rw [hgpart c hc]
    decide
  constructor
  · show ((detect_conflicts [f1, f2]).filter _).length = 1
    unfold detect_conflicts
    rw [List.filter_append, hfilterg, List.nil_append, hrc]
    rfl
  · intro c hc hty
    unfold detect_conflicts at hc
    rcases List.mem_append.mp hc with hg | hr
    · rw [hgpart c hg] at hty
      exact absurd hty (by decide)
    · rw [hrc] at hr
      rcases List.mem_singleton.mp hr with rfl
      rfl

/-- Witness for the amended C6 theorem at two `interest_rates` facts. -/
theorem range_contradiction_single_category_witness :
    ((detect_conflicts
        [{ key := "interest_rates.cap", value := "up to 5%",
           confidence := 4/5 },
         { key := "interest_rates.floor", value := "minimum 10%",
           confidence := 4/5 }]).filter
      (fun c => c.ctype == "overlapping_ranges")).length = 1 ∧
    ∀ c ∈ detect_conflicts
        [{ key := "interest_rates.cap", value := "up to 5%",
           confidence := 4/5 },
         { key := "interest_rates.floor", value := "minimum 10%",
           confidence := 4/5 }], c.ctype = "overlapping_ranges" →
      c.sev = "high" :=
  range_contradiction_single_category
    { key := "interest_rates.cap", value := "up to 5%", confidence := 4/5 }
    { key := "interest_rates.floor", value := "minimum 10%",
      confidence := 4/5 }
    rfl rfl (by decide) (by decide) (by decide) (by decide) (by decide)
    (by decide) (by decide) (by decide) (by decide) (by decide) (by decide)
    (by decide)

/-! ## C4: the compound-fee "whichever is higher/lower" mapping -/

/-- A whitespace character is one of the six ASCII whitespace characters. -/
lemma isWs_char_cases {c : Char} (h : isWs c = true) :
    c = ' ' ∨ c = '\t' ∨ c = '\n' ∨ c = '\x0d' ∨ c = '\x0c' ∨ c = '\x0b' := by
  simp only [isWs, Bool.or_eq_true, decide_eq_true_eq] at h
  tauto

/-- Digits are not whitespace. -/
lemma isWs_false_of_isDig {c : Char} (h : isDig c = true) : isWs c = false := by
  cases hw : isWs c with
  | false => rfl
  | true =>
    rcases isWs_char_cases hw with rfl | rfl | rfl | rfl | rfl | rfl <;>
      exact absurd h (by decide)

/-- Amount characters (digits and commas) are not whitespace. -/
lemma isWs_false_of_isAmtC {c : Char} (h : isAmtC c = true) : isWs c = false := by
  cases hw : isWs c with
  | false => rfl
  | true =>
    rcases isWs_char_cases hw with rfl | rfl | rfl | rfl | rfl | rfl <;>
      exact absurd h (by decide)

/-- `takeWhile`/`dropWhile` across a prefix that satisfies the predicate,
stopped by a first failing character. -/
lemma tw_app {p : Char → Bool} (a : List Char) (c : Char) (r : List Char)
    (h : ∀ x ∈ a, p x = true) (hc : p c = false) :
    (a ++ c :: r).takeWhile p = a ∧ (a ++ c :: r).dropWhile p = c :: r := by
  induction a with
  | nil =>
    refine ⟨?_, ?_⟩
    · simp [List.takeWhile_cons, hc]
    · simp [List.dropWhile_cons, hc]
  | cons x xs ih =>
    have hx : p x = true := h x (by simp)
    have ihh := ih (fun y hy => h y (by simp [hy]))
    refine ⟨?_, ?_⟩
    · simp [List.cons_append, List.takeWhile_cons, hx, ihh.1]
    · simp [List.cons_append, List.dropWhile_cons, hx, ihh.2]

/-- `dropWhile` is the identity when the head fails the predicate. -/
lemma dropWhile_self_of_head {p : Char → Bool} {l : List Char} {c : Char}
    (hh : l.head? = some c) (hc : p c = false) : l.dropWhile p = l := by
  cases l with
  | nil => rfl
  | cons a t =>
    simp only [List.head?_cons, Option.some.injEq] at hh
    subst hh
    simp [List.dropWhile_cons, hc]

/-- `str.strip()` is the identity when neither end is whitespace. -/
lemma pyStrip_eq_self_of {l : List Char} {a b : Char}
    (hh : l.head? = some a) (ha : isWs a = false)
    (hr : l.reverse.head? = some b) (hb : isWs b = false) : pyStrip l = l := by
  unfold pyStrip
  rw [dropWhile_self_of_head hh ha, dropWhile_self_of_head hr hb,
    List.reverse_reverse]

/-- `pctNumCapture` on a pure digit block followed by a non-digit. -/
lemma pctNumCapture_digits (d0 : Char) (d r : List Char)
    (hall : ∀ c ∈ d0 :: d, isDig c = true) :
    pctNumCapture ((d0 :: d) ++ '%' :: r) = some (d0 :: d, '%' :: r) := by
  have h := tw_app (d0 :: d) '%' r hall (by decide)
  simp only [pctNumCapture]
  rw [h.1, h.2]
  rfl

/-- `pctNumCapture` on digits, a dot, digits, then a non-digit. -/
lemma pctNumCapture_frac (d0 f0 : Char) (d f r : List Char)
    (halld : ∀ c ∈ d0 :: d, isDig c = true)
    (hallf : ∀ c ∈ f0 :: f, isDig c = true) :
    pctNumCapture ((d0 :: d) ++ '.' :: ((f0 :: f) ++ '%' :: r)) =
      some ((d0 :: d) ++ '.' :: (f0 :: f), '%' :: r) := by
  have h1 := tw_app (d0 :: d) '.' ((f0 :: f) ++ '%' :: r) halld (by decide)
  have h2 := tw_app (f0 :: f) '%' r hallf (by decide)
  have h2a : List.takeWhile isDig (f0 :: (f ++ '%' :: r)) = f0 :: f := by
    simpa [List.cons_append] using h2.1
  have h2b : List.dropWhile isDig (f0 :: (f ++ '%' :: r)) = '%' :: r := by
    simpa [List.cons_append] using h2.2
  simp only [pctNumCapture]
  rw [h1.1, h1.2]
  simp [h2a, h2b]

/-- `amtAndWhich` on an amount block followed by the literal tail. -/
lemma amtAndWhich_eval (a0 : Char) (amt w : List Char)
    (hall : ∀ c ∈ a0 :: amt, isAmtC c = true)
    (hw : w = "higher".data ∨ w = "lower".data) :
    amtAndWhich ((a0 :: amt) ++ ' ' :: ("whichever is ".data ++ w)) =
      some (a0 :: amt, w) := by
  have h := tw_app (a0 :: amt) ' ' ("whichever is ".data ++ w) hall (by decide)
  simp only [amtAndWhich]
  rw [h.1, h.2]
  rcases hw with rfl | rfl <;> rfl

/-- `whicheverCore` on the literal middle followed by amount and tail. -/
lemma whicheverCore_eval (a0 : Char) (amt w : List Char)
    (hall : ∀ c ∈ a0 :: amt, isAmtC c = true)
    (hw : w = "higher".data ∨ w = "lower".data) :
    whicheverCore
        (" or ₹".data ++ ((a0 :: amt) ++ ' ' :: ("whichever is ".data ++ w))) =
      some (a0 :: amt, w) := by
  have hd0 : isWs a0 = false := isWs_false_of_isAmtC (hall a0 (by simp))
  have hM : (((a0 :: amt) ++ ' ' :: ("whichever is ".data ++ w)) :
        List Char).dropWhile isWs =
      (a0 :: amt) ++ ' ' :: ("whichever is ".data ++ w) := by
    simp [List.cons_append, List.dropWhile_cons, hd0]
  have hstep : whicheverCore (" or ₹".data ++ ((a0 :: amt) ++ ' ' :: ("whichever is ".data ++ w))) = amtAndWhich (((a0 :: amt) ++ ' ' :: ("whichever is ".data ++ w)).dropWhile isWs) := rfl
  rw [hstep, hM]
  exact amtAndWhich_eval a0 amt w hall hw

/-- `matchWhichever` on a fractional percentage form. -/
lemma matchWhichever_frac (d0 f0 a0 : Char) (d f amt w : List Char)
    (halld : ∀ c ∈ d0 :: d, isDig c = true)
    (hallf : ∀ c ∈ f0 :: f, isDig c = true)
    (halla : ∀ c ∈ a0 :: amt, isAmtC c = true)
    (hw : w = "higher".data ∨ w = "lower".data) :
    matchWhichever ((d0 :: d) ++ '.' :: ((f0 :: f) ++ '%' ::
        (" or ₹".data ++ ((a0 :: amt) ++ ' ' :: ("whichever is ".data ++ w)))))
      = some ((d0 :: d) ++ '.' :: (f0 :: f), a0 :: amt, w) := by
  unfold matchWhichever
  rw [pctNumCapture_frac d0 f0 d f _ halld hallf]
  show Option.map (fun aw => ((d0 :: d) ++ '.' :: (f0 :: f), aw.1, aw.2))
      (whicheverCore
        (" or ₹".data ++ ((a0 :: amt) ++ ' ' :: ("whichever is ".data ++ w))))
    = some ((d0 :: d) ++ '.' :: (f0 :: f), a0 :: amt, w)
  rw [whicheverCore_eval a0 amt w halla hw]
  rfl

/-- `matchWhichever` on an integral percentage form. -/
lemma matchWhichever_nofrac (d0 a0 : Char) (d amt w : List Char)
    (halld : ∀ c ∈ d0 :: d, isDig c = true)
    (halla : ∀ c ∈ a0 :: amt, isAmtC c = true)
    (hw : w = "higher".data ∨ w = "lower".data) :
    matchWhichever ((d0 :: d) ++ '%' ::
        (" or ₹".data ++ ((a0 :: amt) ++ ' ' :: ("whichever is ".data ++ w))))
      = some (d0 :: d, a0 :: amt, w) := by
  unfold matchWhichever
  rw [pctNumCapture_digits d0 d _ halld]
  show Option.map (fun aw => (d0 :: d, aw.1, aw.2))
      (whicheverCore
        (" or ₹".data ++ ((a0 :: amt) ++ ' ' :: ("whichever is ".data ++ w))))
    = some (d0 :: d, a0 :: amt, w)
  rw [whicheverCore_eval a0 amt w halla hw]
  rfl

/-- `_normalize_value` on any stripped value that matches the
whichever-pattern (for a key without "emi_currency"): the compound
rewrite fires. -/
lemma normalize_value_whichever (V pct amt w key : List Char)
    (hne : V.isEmpty = false)
    (hstrip : pyStrip V = V)
    (hkey : containsSub (pyLower key) "emi_currency".data = false)
    (hmw : matchWhichever V = some (pct, amt, w)) :
    normalize_value_chars V key =
      pct ++ "% or ₹".data ++ amt ++ " (use ".data ++
        (if pyLower w = "higher".data then "min".data else "max".data) ++
        [')'] := by
  have hkey2 : containsSub (pyLower key)
      ['e', 'm', 'i', '_', 'c', 'u', 'r', 'r', 'e', 'n', 'c', 'y'] = false :=
    hkey
  simp only [normalize_value_chars, hne, hstrip, hkey2, hmw]
  rfl

/-- The whichever-rewrite on the canonical fractional-percentage form. -/
lemma whichever_canonical_frac (d0 f0 a0 : Char) (d f amt w key : List Char)
    (hdall : ∀ c ∈ d0 :: d, isDig c = true)
    (hfall : ∀ c ∈ f0 :: f, isDig c = true)
    (haall : ∀ c ∈ a0 :: amt, isAmtC c = true)
    (hw : w = "higher".data ∨ w = "lower".data)
    (hkey : containsSub (pyLower key) "emi_currency".data = false) :
    normalize_value_chars
        ((d0 :: d) ++ '.' :: ((f0 :: f) ++ '%' ::
          (" or ₹".data ++
            ((a0 :: amt) ++ ' ' :: ("whichever is ".data ++ w))))) key
      = ((d0 :: d) ++ '.' :: (f0 :: f)) ++ "% or ₹".data ++ (a0 :: amt) ++
          " (use ".data ++
          (if pyLower w = "higher".data then "min".data else "max".data) ++
          [')'] := by
  set V := (d0 :: d) ++ '.' :: ((f0 :: f) ++ '%' ::
      (" or ₹".data ++ ((a0 :: amt) ++ ' ' :: ("whichever is ".data ++ w))))
    with hV
  have hne : V.isEmpty = false := by rw [hV]; rfl
  have hmw : matchWhichever V =
      some ((d0 :: d) ++ '.' :: (f0 :: f), a0 :: amt, w) := by
    rw [hV]; exact matchWhichever_frac d0 f0 a0 d f amt w hdall hfall haall hw
  have hh : V.head? = some d0 := by rw [hV]; rfl
  have hrh : V.reverse.head? = some (Char.ofNat 114) := by
    rw [hV]
    simp only [List.reverse_append, List.reverse_cons]
    rcases hw with rfl | rfl <;> rfl
  have hstrip : pyStrip V = V :=
    pyStrip_eq_self_of hh (isWs_false_of_isDig (hdall d0 (by simp))) hrh
      (by decide)
  rw [normalize_value_whichever V ((d0 :: d) ++ '.' :: (f0 :: f)) (a0 :: amt)
    w key hne hstrip hkey hmw]

/-- The whichever-rewrite on the canonical integral-percentage form. -/
lemma whichever_canonical_nofrac (d0 a0 : Char) (d amt w key : List Char)
    (hdall : ∀ c ∈ d0 :: d, isDig c = true)
    (haall : ∀ c ∈ a0 :: amt, isAmtC c = true)
    (hw : w = "higher".data ∨ w = "lower".data)
    (hkey : containsSub (pyLower key) "emi_currency".data = false) :
    normalize_value_chars
        ((d0 :: d) ++ '%' ::
          (" or ₹".data ++
            ((a0 :: amt) ++ ' ' :: ("whichever is ".data ++ w)))) key
      = (d0 :: d) ++ "% or ₹".data ++ (a0 :: amt) ++ " (use ".data ++
          (if pyLower w = "higher".data then "min".data else "max".data) ++
          [')'] := by
  set V := (d0 :: d) ++ '%' ::
      (" or ₹".data ++ ((a0 :: amt) ++ ' ' :: ("whichever is ".data ++ w)))
    with hV
  have hne : V.isEmpty = false := by rw [hV]; rfl
  have hmw : matchWhichever V = some (d0 :: d, a0 :: amt, w) := by
    rw [hV]; exact matchWhichever_nofrac d0 a0 d amt w hdall haall hw
  have hh : V.head? = some d0 := by rw [hV]; rfl
  have hrh : V.reverse.head? = some (Char.ofNat 114) := by
    rw [hV]
    simp only [List.reverse_append, List.reverse_cons]
    rcases hw with rfl | rfl <;> rfl
  have hstrip : pyStrip V = V :=
    pyStrip_eq_self_of hh (isWs_false_of_isDig (hdall d0 (by simp))) hrh
      (by decide)
  rw [normalize_value_whichever V (d0 :: d) (a0 :: amt) w key hne hstrip hkey
    hmw]

/-- C4: for every key not containing "emi_currency" and every value of the
form "{X}% or ₹{Y} whichever is higher" (resp. "lower") — X a digit string
with an optional fractional part, Y a nonempty string of digits and
commas — `_normalize_value` returns "{X}% or ₹{Y} (use min)" (resp.
"(use max)"): "higher" maps to comparator min and "lower" to max. -/
theorem compound_fee_whichever_mapping
    (d f amt : List Char) (useFrac hi : Bool) (key : String)
    (hd : d ≠ []) (hdall : ∀ c ∈ d, isDig c = true)
    (hf : useFrac = true → f ≠ []) (hfall : ∀ c ∈ f, isDig c = true)
    (ha : amt ≠ []) (haall : ∀ c ∈ amt, isAmtC c = true)
    (hkey : containsSub (pyLower key.data) "emi_currency".data = false) :
    normalize_value
        ⟨(if useFrac then d ++ '.' :: f else d) ++ "% or ₹".data ++ amt ++
          " whichever is ".data ++
          (if hi then "higher".data else "lower".data)⟩ key =
      ⟨(if useFrac then d ++ '.' :: f else d) ++ "% or ₹".data ++ amt ++
        " (use ".data ++ (if hi then "min".data else "max".data) ++ [')']⟩ := by
  rcases d with _ | ⟨d0, d2⟩
  · exact absurd rfl hd
  rcases amt with _ | ⟨a0, a2⟩
  · exact absurd rfl ha
  cases useFrac with
  | false =>
    cases hi with
    | true =>
      show String.mk (normalize_value_chars
          ((d0 :: d2) ++ "% or ₹".data ++ (a0 :: a2) ++
            " whichever is ".data ++ "higher".data) key.data) =
        String.mk ((d0 :: d2) ++ "% or ₹".data ++ (a0 :: a2) ++
          " (use ".data ++ "min".data ++ [')'])
      refine congrArg String.mk ?_
      rw [show ((d0 :: d2) ++ "% or ₹".data ++ (a0 :: a2) ++
            " whichever is ".data ++ "higher".data)
          = (d0 :: d2) ++ '%' :: (" or ₹".data ++
              ((a0 :: a2) ++ ' ' :: ("whichever is ".data ++ "higher".data)))
          from by simp only [List.append_assoc, List.cons_append]]
      rw [whichever_canonical_nofrac d0 a0 d2 a2 "higher".data key.data
        hdall haall (Or.inl rfl) hkey]
      rfl
    | false =>
      show String.mk (normalize_value_chars
          ((d0 :: d2) ++ "% or ₹".data ++ (a0 :: a2) ++
            " whichever is ".data ++ "lower".data) key.data) =
        String.mk ((d0 :: d2) ++ "% or ₹".data ++ (a0 :: a2) ++
          " (use ".data ++ "max".data ++ [')'])
      refine congrArg String.mk ?_
      rw [show ((d0 :: d2) ++ "% or ₹".data ++ (a0 :: a2) ++
            " whichever is ".data ++ "lower".data)
          = (d0 :: d2) ++ '%' :: (" or ₹".data ++
              ((a0 :: a2) ++ ' ' :: ("whichever is ".data ++ "lower".data)))
          from by simp only [List.append_assoc, List.cons_append]]
      rw [whichever_canonical_nofrac d0 a0 d2 a2 "lower".data key.data
        hdall haall (Or.inr rfl) hkey]
      rfl
  | true =>
    have hf2 := hf rfl
    rcases f with _ | ⟨f0, f2⟩
    · exact absurd rfl hf2
    cases hi with
    | true =>
      show String.mk (normalize_value_chars
          (((d0 :: d2) ++ '.' :: (f0 :: f2)) ++ "% or ₹".data ++ (a0 :: a2) ++
            " whichever is ".data ++ "higher".data) key.data) =
        String.mk (((d0 :: d2) ++ '.' :: (f0 :: f2)) ++ "% or ₹".data ++
          (a0 :: a2) ++ " (use ".data ++ "min".data ++ [')'])
      refine congrArg String.mk ?_
      rw [show (((d0 :: d2) ++ '.' :: (f0 :: f2)) ++ "% or ₹".data ++
            (a0 :: a2) ++ " whichever is ".data ++ "higher".data)
          = (d0 :: d2) ++ '.' :: ((f0 :: f2) ++ '%' :: (" or ₹".data ++
              ((a0 :: a2) ++ ' ' :: ("whichever is ".data ++ "higher".data))))
          from by simp only [List.append_assoc, List.cons_append]]
      rw [whichever_canonical_frac d0 f0 a0 d2 f2 a2 "higher".data key.data
        hdall hfall haall (Or.inl rfl) hkey]
      rfl
    | false =>
      show String.mk (normalize_value_chars
          (((d0 :: d2) ++ '.' :: (f0 :: f2)) ++ "% or ₹".data ++ (a0 :: a2) ++
            " whichever is ".data ++ "lower".data) key.data) =
        String.mk (((d0 :: d2) ++ '.' :: (f0 :: f2)) ++ "% or ₹".data ++
          (a0 :: a2) ++ " (use ".data ++ "max".data ++ [')'])
      refine congrArg String.mk ?_
      rw [show (((d0 :: d2) ++ '.' :: (f0 :: f2)) ++ "% or ₹".data ++
            (a0 :: a2) ++ " whichever is ".data ++ "lower".data)
          = (d0 :: d2) ++ '.' :: ((f0 :: f2) ++ '%' :: (" or ₹".data ++
              ((a0 :: a2) ++ ' ' :: ("whichever is ".data ++ "lower".data))))
          from by simp only [List.append_assoc, List.cons_append]]
      rw [whichever_canonical_frac d0 f0 a0 d2 f2 a2 "lower".data key.data
        hdall hfall haall (Or.inr rfl) hkey]
      rfl

/-- Witness for the compound-fee mapping at the spec's own example:
"1.50% or ₹4,500 whichever is higher" becomes "1.50% or ₹4,500 (use min)"
under the processing-fee key. -/
theorem compound_fee_whichever_mapping_witness :
    normalize_value "1.50% or ₹4,500 whichever is higher"
        "fees_and_charges.processing_fee" = "1.50% or ₹4,500 (use min)" := by
  have h := compound_fee_whichever_mapping ['1'] ['5', '0']
      ['4', ',', '5', '0', '0'] true true "fees_and_charges.processing_fee"
      (by decide) (by decide) (fun _ => by decide) (by decide)
      (by decide) (by decide) (by decide)
  exact h

end PolicyCompare
